import Mathlib

/-!
Shallow embedding of the redis-analyzer diagnostic tool (src/commands/analyze.js,
src/checks/*.js, src/utils/*.js) together with proofs about its behaviour.

JavaScript semantics used by the embedded code are modelled explicitly:
numbers are exact fractions (`JSQ`), `NaN` is `Option.none` (`JNum`),
Redis reply values are `JSVal` (number, string, `null`, `undefined`), and
string manipulation is done over character lists so that everything
reduces inside the kernel.
-/

namespace RedisAnalyzer

/-- A JavaScript value as it appears in a pipelined Redis reply after the
`entry?.[1]` projection: a number, a string, `null`, or `undefined`
(the latter both for a missing pipeline entry and for an errored command,
whose result slot ioredis leaves undefined). -/
inductive JSVal where
  | num (n : Int)
  | str (s : String)
  | null
  | undefined
deriving DecidableEq

/-- An exact JavaScript number as a fraction `num / den` with `den > 0`
maintained by all constructors below.  Fractions are kept unnormalised so
every operation is plain integer arithmetic and reduces in the kernel. -/
structure JSQ where
  num : Int
  den : Int
deriving DecidableEq

def JSQ.ofInt (n : Int) : JSQ := ⟨n, 1⟩

def JSQ.add (a b : JSQ) : JSQ := ⟨a.num * b.den + b.num * a.den, a.den * b.den⟩

def JSQ.sub (a b : JSQ) : JSQ := ⟨a.num * b.den - b.num * a.den, a.den * b.den⟩

def JSQ.mul (a b : JSQ) : JSQ := ⟨a.num * b.num, a.den * b.den⟩

/-- Division `a / b`; callers guarantee `b` is nonzero (division by zero is
handled at the `JNum` level). -/
def JSQ.div (a b : JSQ) : JSQ :=
  let n := a.num * b.den
  let d := a.den * b.num
  if d < 0 then ⟨-n, -d⟩ else ⟨n, d⟩

def JSQ.beq (a b : JSQ) : Bool := a.num * b.den == b.num * a.den

def JSQ.blt (a b : JSQ) : Bool := a.num * b.den < b.num * a.den

def JSQ.ble (a b : JSQ) : Bool := a.num * b.den ≤ b.num * a.den

def JSQ.abs (a : JSQ) : JSQ := ⟨(a.num.natAbs : Int), a.den⟩

/-- A JavaScript number that may be `NaN` (`none`). -/
def JNum := Option JSQ
deriving DecidableEq

def jnum (n : Int) : JNum := some (JSQ.ofInt n)

def jadd (a b : JNum) : JNum :=
  match a, b with
  | some x, some y => some (x.add y)
  | _, _ => none

def jsub (a b : JNum) : JNum :=
  match a, b with
  | some x, some y => some (x.sub y)
  | _, _ => none

def jmul (a b : JNum) : JNum :=
  match a, b with
  | some x, some y => some (x.mul y)
  | _, _ => none

/-- JavaScript division.  Division by zero yields `none` here (JS would give
an infinity); every division in the embedded code is guarded by a
positivity test on the divisor, so the difference is not observable. -/
def jdiv (a b : JNum) : JNum :=
  match a, b with
  | some x, some y => if y.num = 0 then none else some (x.div y)
  | _, _ => none

/-- JavaScript `<`: comparisons involving `NaN` are false. -/
def jlt (a b : JNum) : Bool :=
  match a, b with
  | some x, some y => x.blt y
  | _, _ => false

def jle (a b : JNum) : Bool :=
  match a, b with
  | some x, some y => x.ble y
  | _, _ => false

def jgt (a b : JNum) : Bool := jlt b a

def jge (a b : JNum) : Bool := jle b a

def jltI (a : JNum) (n : Int) : Bool := jlt a (jnum n)

def jleI (a : JNum) (n : Int) : Bool := jle a (jnum n)

def jgtI (a : JNum) (n : Int) : Bool := jgt a (jnum n)

def jgeI (a : JNum) (n : Int) : Bool := jge a (jnum n)

/-- `NaN`-propagating addition on integer-valued JS numbers. -/
def iadd (a b : Option Int) : Option Int :=
  match a, b with
  | some x, some y => some (x + y)
  | _, _ => none

/-- JavaScript `a > n` for an integer-valued JS number (`NaN > n` is false). -/
def igt (a : Option Int) (n : Int) : Bool :=
  match a with
  | some x => x > n
  | none => false

def ile (a : Option Int) (n : Int) : Bool :=
  match a with
  | some x => x ≤ n
  | none => false

-- ── JSVal coercions mirroring JavaScript truthiness ──

/-- JavaScript `v || dflt` in string position (`0`, `""`, `null` and
`undefined` are falsy; a non-zero number would be coerced to its decimal
numeral when used as an object key). -/
def jsValOrStr (v : JSVal) (dflt : String) : String :=
  match v with
  | .str s => if s = "" then dflt else s
  | .num n => if n = 0 then dflt else n.repr
  | _ => dflt

/-- JavaScript `v || dflt` in integer position; the commands feeding this
(`MEMORY USAGE`, `TTL`) reply with integers, so a string reply is not
modelled and falls back to the default. -/
def jsValOrInt (v : JSVal) (dflt : Int) : Int :=
  match v with
  | .num n => if n = 0 then dflt else n
  | _ => dflt

/-- JavaScript `v || dflt` in number position, as a `JNum`. -/
def jsValOrNum (v : JSVal) (dflt : Int) : JNum :=
  some (JSQ.ofInt (jsValOrInt v dflt))

/-- JavaScript strict equality `v === n` against a number literal. -/
def jsValEqInt (v : JSVal) (n : Int) : Bool :=
  match v with
  | .num m => m == n
  | _ => false

/-- JavaScript `v < n` against a number literal: `null` coerces to `0`,
`undefined` is `NaN` (always false); the commands feeding this reply with
integers, so strings are not modelled. -/
def jsValLtInt (v : JSVal) (n : Int) : Bool :=
  match v with
  | .num m => m < n
  | .null => 0 < n
  | _ => false

-- ── String helpers (over character lists, so they kernel-reduce) ──

def strChars (s : String) : List Char := s.toList

def charsStr (l : List Char) : String := String.mk l

/-- One step list of `String.prototype.split`: `fuel` bounds the recursion and
is instantiated with the length of the input, which always suffices for a
non-empty separator. -/
def jsSplitChars (sep : List Char) : Nat → List Char → List Char → List (List Char)
  | 0, rest, acc => [acc.reverse ++ rest]
  | _ + 1, [], acc => [acc.reverse]
  | fuel + 1, c :: rest, acc =>
    if sep.isPrefixOf (c :: rest) then
      acc.reverse :: jsSplitChars sep fuel ((c :: rest).drop sep.length) []
    else
      jsSplitChars sep fuel rest (c :: acc)

/-- JavaScript `s.split(sep)` for a non-empty separator. -/
def jsSplit (s sep : String) : List String :=
  (jsSplitChars sep.toList s.toList.length s.toList []).map charsStr

/-- JavaScript `s.trim()` (whitespace per `Char.isWhitespace`). -/
def jsTrim (s : String) : String :=
  charsStr (((s.toList.dropWhile Char.isWhitespace).reverse.dropWhile Char.isWhitespace).reverse)

def jsStartsWith (s p : String) : Bool := p.toList.isPrefixOf s.toList

/-- JavaScript `s.indexOf(c)` for a single character, as an `Option`
(`none` plays the role of `-1`). -/
def jsIndexOfChar (s : String) (c : Char) : Option Nat :=
  s.toList.findIdx? (· = c)

/-- JavaScript `s.slice(0, i)`. -/
def strTake (s : String) (i : Nat) : String := charsStr (s.toList.take i)

/-- JavaScript `s.slice(i)`. -/
def strDrop (s : String) (i : Nat) : String := charsStr (s.toList.drop i)

def digitsToNat (ds : List Char) : Nat :=
  ds.foldl (fun acc c => acc * 10 + (c.toNat - '0'.toNat)) 0

/-- Leading decimal digits of a character list, `none` when there are none. -/
def leadingDigits (cs : List Char) : Option Nat :=
  let ds := cs.takeWhile Char.isDigit
  if ds.isEmpty then none else some (digitsToNat ds)

/-- JavaScript `parseInt(s, 10)`: skip whitespace, optional sign, then the
longest run of decimal digits; `NaN` (`none`) when no digit is found. -/
def jsParseInt (s : String) : Option Int :=
  let l := s.toList.dropWhile Char.isWhitespace
  match l with
  | '-' :: rest => (leadingDigits rest).map (fun d => -(d : Int))
  | '+' :: rest => (leadingDigits rest).map (fun d => (d : Int))
  | _ => (leadingDigits l).map (fun d => (d : Int))

/-- `parseInt` producing a `JNum`. -/
def jsParseIntN (s : String) : JNum := (jsParseInt s).map JSQ.ofInt

def fracDigitsVal (ds : List Char) : JSQ := ⟨(digitsToNat ds : Int), ((10 : Nat) ^ ds.length : Nat)⟩

/-- Decimal part parsing for `parseFloat`: digits, optional point and more
digits (at least one digit overall); exponents do not occur in the INFO
fields this tool reads and are not modelled. -/
def parseDecimal (cs : List Char) : Option JSQ :=
  let intDs := cs.takeWhile Char.isDigit
  let rest := cs.dropWhile Char.isDigit
  match rest with
  | '.' :: rest2 =>
    let fracDs := rest2.takeWhile Char.isDigit
    if intDs.isEmpty && fracDs.isEmpty then none
    else some ((JSQ.ofInt (digitsToNat intDs : Int)).add (fracDigitsVal fracDs))
  | _ => if intDs.isEmpty then none else some (JSQ.ofInt (digitsToNat intDs : Int))

/-- JavaScript `parseFloat(s)` restricted to plain decimal literals. -/
def jsParseFloat (s : String) : JNum :=
  let l := s.toList.dropWhile Char.isWhitespace
  match l with
  | '-' :: rest => (parseDecimal rest).map (fun q => (JSQ.ofInt 0).sub q)
  | '+' :: rest => parseDecimal rest
  | _ => parseDecimal l

/-- Left-pad a numeral string with zeros to the given width. -/
def padZeros (w : Nat) (s : String) : String :=
  charsStr (List.replicate (w - s.length) '0') ++ s

/-- ECMAScript `Number.prototype.toFixed(d)`: round half away from zero is
approximated by round-half-up, which agrees on the non-negative values the
embedded code formats. -/
def JSQ.toFixed (d : Nat) (q : JSQ) : String :=
  let p : Int := ((10 : Nat) ^ d : Nat)
  let r : Int := Int.fdiv (2 * q.num * p + q.den) (2 * q.den)
  if d = 0 then r.repr
  else
    let sign := if r < 0 then "-" else ""
    let a := r.natAbs
    sign ++ (a / (10 : Nat) ^ d).repr ++ "." ++ padZeros d ((a % (10 : Nat) ^ d).repr)

/-- `formatPercent` from src/utils/format.js: `value.toFixed(1) + "%"`
(`NaN` formats as `"NaN"`). -/
def formatPercent (value : JNum) : String :=
  match value with
  | some q => q.toFixed 1 ++ "%"
  | none => "NaN%"

def groupThousands (s : String) : String :=
  charsStr (((s.toList.reverse.toChunks 3).intersperse [',']).flatten.reverse)

/-- `formatNumber` from src/utils/format.js (`toLocaleString("en-US")`),
for the integer values the embedded code formats. -/
def formatNumber (n : JNum) : String :=
  match n with
  | none => "NaN"
  | some q =>
    let i : Int := Int.fdiv q.num q.den
    (if i < 0 then "-" else "") ++ groupThousands i.natAbs.repr

def formatNumberI (n : Option Int) : String :=
  formatNumber (n.map JSQ.ofInt)

/-- JavaScript `v.toFixed(2)` on a possibly-`NaN` number. -/
def formatFixed2 (v : JNum) : String :=
  match v with
  | some q => q.toFixed 2
  | none => "NaN"

-- ── JavaScript objects as insertion-ordered association lists ──

def jsObjGet (o : List (String × α)) (k : String) : Option α := o.lookup k

/-- `o[k] = v`: overwrite in place when present, append otherwise
(JS objects keep first-insertion position). -/
def jsObjSet (o : List (String × α)) (k : String) (v : α) : List (String × α) :=
  if (o.lookup k).isSome then
    o.map (fun p => if p.1 = k then (p.1, v) else p)
  else o ++ [(k, v)]

/-- Read-modify-write `o[k] = f (o[k] ?? d)` used for the distribution maps. -/
def jsObjUpd (o : List (String × α)) (k : String) (d : α) (f : α → α) : List (String × α) :=
  if (o.lookup k).isSome then
    o.map (fun p => if p.1 = k then (p.1, f p.2) else p)
  else o ++ [(k, f d)]

/-- JavaScript `v || dflt` on an optional string (both a missing key and an
empty string are falsy). -/
def jsOrStr (v : Option String) (dflt : String) : String :=
  match v with
  | some s => if s = "" then dflt else s
  | none => dflt

/-- `parseInfoSection` from src/utils/connection.js: split the raw INFO
response on CRLF, skip comments and blank lines, and split each remaining
line at its first colon. -/
def parseInfoSection (infoString : String) : List (String × String) :=
  (jsSplit infoString "\r\n").foldl
    (fun result line =>
      if jsStartsWith line "#" || jsTrim line = "" then result
      else
        match jsIndexOfChar line ':' with
        | none => result
        | some separatorIndex =>
          jsObjSet result (strTake line separatorIndex) (strDrop line (separatorIndex + 1)))
    []

-- ── Threshold constants (src/utils/thresholds.js) ──

def FRAGMENTATION_WARNING : JSQ := ⟨15, 10⟩

def FRAGMENTATION_CRITICAL : JSQ := ⟨2, 1⟩

def MEMORY_USAGE_WARNING_PERCENT : Int := 75

def MEMORY_USAGE_CRITICAL_PERCENT : Int := 90

def HIT_RATE_WARNING_PERCENT : Int := 90

def HIT_RATE_CRITICAL_PERCENT : Int := 70

def CLIENT_USAGE_WARNING_PERCENT : Int := 80

def IDLE_CLIENT_THRESHOLD_SECONDS : Int := 300

def CLIENT_LIST_MAX_PARSE : Int := 5000

def NO_TTL_WARNING_PERCENT : Int := 50

def DEFAULT_SCAN_COUNT : Int := 1000

def SCAN_BATCH_SIZE : Int := 100

def PIPELINE_BATCH_SIZE : Int := 50

def TOP_KEYS_COUNT : Int := 20

-- ── Data model: sections and per-check metric records ──

structure DbEntry where
  keys : Option Int
  expires : Option Int
deriving DecidableEq

structure MemMetrics where
  usedMemory : JNum
  usedMemoryHuman : String
  peakMemory : JNum
  peakMemoryHuman : String
  maxMemory : JNum
  maxMemoryPolicy : String
  fragmentationRatio : JNum
  evictedKeys : JNum
  usedMemoryOverhead : JNum
  usedMemoryDataset : JNum
  luaMemory : JNum
  memoryUtilization : JNum
deriving DecidableEq

structure PerfMetrics where
  opsPerSecond : JNum
  totalCommands : JNum
  keyspaceHits : JNum
  keyspaceMisses : JNum
  hitRate : JNum
  rejectedConnections : JNum
  totalNetInput : JNum
  totalNetOutput : JNum
  uptimeSeconds : JNum
  redisVersion : String
  slowLogEntries : List (List JSVal)
  slowLogLength : JNum
deriving DecidableEq

structure ConnMetrics where
  connectedClients : JNum
  blockedClients : JNum
  maxClients : JNum
  maxClientsSource : String
  clientUtilization : JNum
  longIdleClients : Int
  largeBufferClients : Int
  databaseDistribution : List (String × Int)
  clientListSkipped : Bool
deriving DecidableEq

structure Replica where
  ip : Option String
  port : Option String
  state : Option String
  offset : Option Int
  lag : Option Int
deriving DecidableEq

structure ReplMetrics where
  role : String
  connectedSlaves : Option Int
  replicas : List Replica
  rdbLastSaveTime : Option Int
  rdbChangesSinceLastSave : Option Int
  rdbLastSaveStatus : String
  timeSinceLastSave : Option Int
  aofEnabled : Bool
  aofLastWriteStatus : String
  loading : Bool
deriving DecidableEq

structure TypeAgg where
  count : Int
  totalBytes : Int
deriving DecidableEq

structure TTLDist where
  none : Int
  under1Hour : Int
  from1HourTo24Hours : Int
  from1DayTo7Days : Int
  over7Days : Int
deriving DecidableEq

structure KeySize where
  key : String
  type : String
  bytes : Int
deriving DecidableEq

structure GroupAgg where
  count : Int
  totalBytes : Int
deriving DecidableEq

structure KPMetrics where
  totalKeys : Option Int
  totalExpiring : Option Int
  databases : List (String × DbEntry)
  sampledCount : Nat
  typeDistribution : List (String × TypeAgg)
  encodingDistribution : List (String × Int)
  timeToLiveDistribution : TTLDist
  topKeys : List KeySize
  noTimeToLivePercent : JNum
  sortedGroups : List (String × GroupAgg)
deriving DecidableEq

/-- The heterogeneous `metrics` object of a check result.  `empty` is the
`{}` returned by every check's catch branch; `keyPatternsEmpty` is the
reduced `{ totalKeys: 0, databases }` object of the empty-keyspace early
return in src/checks/keyPatternCheck.js. -/
inductive Metrics where
  | empty
  | memoryM (m : MemMetrics)
  | performanceM (m : PerfMetrics)
  | connectionsM (m : ConnMetrics)
  | keyPatternsEmpty (totalKeys : Int) (databases : List (String × DbEntry))
  | keyPatternsM (m : KPMetrics)
  | replicationM (m : ReplMetrics)
deriving DecidableEq

/-- One check's result object `{status, title, metrics, findings}`. -/
structure CheckSection where
  status : String
  title : String
  metrics : Metrics
  findings : List String
deriving DecidableEq

-- ── The adapter: one ioredis client, commands may fail independently ──

/-- The injected Redis client, reduced to the commands the five checks
issue.  The orchestrator's identity probe (analyze.js line 145) and the
performance check (performanceCheck.js line 79) each issue their own
`INFO server` round trip, which may fail independently: `infoServer` is
the probe's reply and `infoServerPerf` the performance check's.
`scanPages` lists the successive replies of the SCAN cursor loop;
`pipelineExec` maps a batch of keys to the pipeline's reply array, already
projected to each entry's value slot (`entry?.[1]`); `nowMs` is the
ambient `Date.now()`. -/
structure Redis where
  infoServer : Except String String
  infoServerPerf : Except String String
  infoMemory : Except String String
  infoStats : Except String String
  infoClients : Except String String
  infoReplication : Except String String
  infoPersistence : Except String String
  infoKeyspace : Except String String
  configMaxclients : Except String (List String)
  clientListRaw : Except String String
  slowlog : Except String (Option (List (List JSVal)) × JSVal)
  scanPages : List (Except String (String × List String))
  pipelineExec : List String → Except String (List JSVal)
  nowMs : Int

instance {ε α : Type} [DecidableEq ε] [DecidableEq α] : DecidableEq (Except ε α) := fun a b =>
  match a, b with
  | .ok x, .ok y =>
    if h : x = y then isTrue (by rw [h]) else isFalse (by simp [h])
  | .error x, .error y =>
    if h : x = y then isTrue (by rw [h]) else isFalse (by simp [h])
  | .ok _, .error _ => isFalse (by simp)
  | .error _, .ok _ => isFalse (by simp)

/-- The result of `Promise.all` on two independent commands: the first
settled rejection wins; we model the first argument as rejecting first. -/
def promiseAll2 (a b : Except String α) : Except String (α × α) :=
  match a, b with
  | .error e, _ => .error e
  | _, .error e => .error e
  | .ok x, .ok y => .ok (x, y)

-- ── Memory check (src/checks/memoryCheck.js) ──

def memTitle : String := "MEMORY ANALYSIS"

def infoNum (info : List (String × String)) (k : String) : JNum :=
  jsParseIntN (jsOrStr (jsObjGet info k) "0")

def infoInt (info : List (String × String)) (k : String) : Option Int :=
  jsParseInt (jsOrStr (jsObjGet info k) "0")

/-- The body of `runMemoryCheck` after the INFO round trip succeeded. -/
def memBody (info : List (String × String)) : CheckSection :=
  let usedMemory := infoNum info "used_memory"
  let usedMemoryHuman := jsOrStr (jsObjGet info "used_memory_human") "N/A"
  let peakMemory := infoNum info "used_memory_peak"
  let peakMemoryHuman := jsOrStr (jsObjGet info "used_memory_peak_human") "N/A"
  let maxMemory := infoNum info "maxmemory"
  let maxMemoryPolicy := jsOrStr (jsObjGet info "maxmemory_policy") "N/A"
  let fragmentationRatio := jsParseFloat (jsOrStr (jsObjGet info "mem_fragmentation_ratio") "0")
  let evictedKeys := infoNum info "evicted_keys"
  let usedMemoryOverhead := infoNum info "used_memory_overhead"
  let usedMemoryDataset := infoNum info "used_memory_dataset"
  let luaMemory := infoNum info "used_memory_lua"
  let stage1 :=
    if jgtI maxMemory 0 then
      let memoryUtilization := jmul (jdiv usedMemory maxMemory) (jnum 100)
      if jgeI memoryUtilization MEMORY_USAGE_CRITICAL_PERCENT then
        (memoryUtilization, "critical",
         ["Memory usage at " ++ formatPercent memoryUtilization ++ " of maxmemory - critically high"])
      else if jgeI memoryUtilization MEMORY_USAGE_WARNING_PERCENT then
        (memoryUtilization, "warning",
         ["Memory usage at " ++ formatPercent memoryUtilization ++ " of maxmemory - approaching limit"])
      else (memoryUtilization, "ok", [])
    else
      (jnum 0, "warning",
       ["maxmemory is not set (unlimited) - consider setting a limit for production"])
  let memoryUtilization := stage1.1
  let stage2 :=
    if jge fragmentationRatio (some FRAGMENTATION_CRITICAL) then
      ("critical", stage1.2.2 ++
        ["Fragmentation ratio " ++ formatFixed2 fragmentationRatio ++ " is critically high (>= 2)"])
    else if jge fragmentationRatio (some FRAGMENTATION_WARNING) then
      (if stage1.2.1 ≠ "critical" then "warning" else stage1.2.1, stage1.2.2 ++
        ["Fragmentation ratio " ++ formatFixed2 fragmentationRatio ++ " is elevated (>= 1.5)"])
    else (stage1.2.1, stage1.2.2)
  let stage3 :=
    if jgtI evictedKeys 0 then
      (if stage2.1 ≠ "critical" then "warning" else stage2.1, stage2.2 ++
        [formatNumber evictedKeys ++ " keys have been evicted - memory pressure detected"])
    else (stage2.1, stage2.2)
  { status := stage3.1
    title := memTitle
    metrics := .memoryM
      { usedMemory := usedMemory, usedMemoryHuman := usedMemoryHuman
        peakMemory := peakMemory, peakMemoryHuman := peakMemoryHuman
        maxMemory := maxMemory, maxMemoryPolicy := maxMemoryPolicy
        fragmentationRatio := fragmentationRatio, evictedKeys := evictedKeys
        usedMemoryOverhead := usedMemoryOverhead, usedMemoryDataset := usedMemoryDataset
        luaMemory := luaMemory, memoryUtilization := memoryUtilization }
    findings := stage3.2 }

def runMemoryCheck (redis : Redis) : CheckSection :=
  match redis.infoMemory with
  | .error e =>
    { status := "critical", title := memTitle, metrics := .empty
      findings := ["Memory check failed: " ++ e] }
  | .ok infoRaw => memBody (parseInfoSection infoRaw)

-- ── Performance check (src/checks/performanceCheck.js) ──

def perfTitle : String := "PERFORMANCE ANALYSIS"

/-- The body of `runPerformanceCheck` after the two INFO round trips were
parsed into numbers (source lines 94-164).  `slowRes` is the joined result
of the inner `Promise.all` on `SLOWLOG GET 20` / `SLOWLOG LEN`. -/
def perfEval (opsPerSecond totalCommands keyspaceHits keyspaceMisses rejectedConnections
    totalNetInput totalNetOutput uptimeSeconds : JNum) (redisVersion : String)
    (slowRes : Except String (Option (List (List JSVal)) × JSVal)) : CheckSection :=
  let totalKeyspaceOps := jadd keyspaceHits keyspaceMisses
  let hitRate :=
    if jgtI totalKeyspaceOps 0 then jmul (jdiv keyspaceHits totalKeyspaceOps) (jnum 100)
    else jnum 0
  let stage1 :=
    if jgtI totalKeyspaceOps 100 then
      if jltI hitRate HIT_RATE_CRITICAL_PERCENT then
        ("critical",
         ["Hit rate " ++ formatPercent hitRate ++ " is critically low (< 70%) - review cache strategy"])
      else if jltI hitRate HIT_RATE_WARNING_PERCENT then
        ("warning",
         ["Hit rate " ++ formatPercent hitRate ++ " is below optimal (< 90%) - consider reviewing cache patterns"])
      else ("ok", [])
    else ("ok", [])
  let stage2 :=
    if jgtI rejectedConnections 0 then
      (if stage1.1 ≠ "critical" then "warning" else stage1.1, stage1.2 ++
        [formatNumber rejectedConnections ++ " connections rejected - maxclients may be too low"])
    else stage1
  let stage3 :=
    match slowRes with
    | .error _ =>
      (stage2.1, stage2.2 ++ ["SLOWLOG command unavailable (may be restricted on managed Redis)"],
       ([] : List (List JSVal)), jnum 0)
    | .ok (slowLog, slowLenResult) =>
      let slowLogEntries := slowLog.getD []
      let slowLogLength := jsValOrNum slowLenResult 0
      if jgtI slowLogLength 100 then
        (if stage2.1 ≠ "critical" then "warning" else stage2.1, stage2.2 ++
          [formatNumber slowLogLength ++ " total slow log entries - indicates systemic slow commands"],
         slowLogEntries, slowLogLength)
      else (stage2.1, stage2.2, slowLogEntries, slowLogLength)
  { status := stage3.1
    title := perfTitle
    metrics := .performanceM
      { opsPerSecond := opsPerSecond, totalCommands := totalCommands
        keyspaceHits := keyspaceHits, keyspaceMisses := keyspaceMisses
        hitRate := hitRate, rejectedConnections := rejectedConnections
        totalNetInput := totalNetInput, totalNetOutput := totalNetOutput
        uptimeSeconds := uptimeSeconds, redisVersion := redisVersion
        slowLogEntries := stage3.2.2.1, slowLogLength := stage3.2.2.2 }
    findings := stage3.2.1 }

def runPerformanceCheck (redis : Redis) : CheckSection :=
  match promiseAll2 redis.infoStats redis.infoServerPerf with
  | .error e =>
    { status := "critical", title := perfTitle, metrics := .empty
      findings := ["Performance check failed: " ++ e] }
  | .ok (statsRaw, serverRaw) =>
    let stats := parseInfoSection statsRaw
    let server := parseInfoSection serverRaw
    perfEval (infoNum stats "instantaneous_ops_per_sec") (infoNum stats "total_commands_processed")
      (infoNum stats "keyspace_hits") (infoNum stats "keyspace_misses")
      (infoNum stats "rejected_connections") (infoNum stats "total_net_input_bytes")
      (infoNum stats "total_net_output_bytes") (infoNum server "uptime_in_seconds")
      (jsOrStr (jsObjGet server "redis_version") "unknown") redis.slowlog

-- ── Connection check (src/checks/connectionCheck.js) ──

def connTitle : String := "CONNECTION ANALYSIS"

/-- `parseClientLine` from src/checks/connectionCheck.js: split a CLIENT
LIST line on spaces and each pair at its first `=`. -/
def parseClientLine (line : String) : List (String × String) :=
  (jsSplit line " ").foldl
    (fun result pair =>
      match jsIndexOfChar pair '=' with
      | none => result
      | some equalsIndex =>
        jsObjSet result (strTake pair equalsIndex) (strDrop pair (equalsIndex + 1)))
    []

/-- Per-line accumulator of the CLIENT LIST loop:
idle count, large-buffer count, database distribution. -/
def connScanLine (acc : Int × Int × List (String × Int)) (line : String) :
    Int × Int × List (String × Int) :=
  let client := parseClientLine line
  let idle := jsParseInt (jsOrStr (jsObjGet client "idle") "0")
  let longIdle := if igt idle IDLE_CLIENT_THRESHOLD_SECONDS then acc.1 + 1 else acc.1
  let outputMemory := jsParseInt (jsOrStr (jsObjGet client "omem") "0")
  let largeBuffer := if igt outputMemory (1024 * 1024) then acc.2.1 + 1 else acc.2.1
  let database := jsOrStr (jsObjGet client "db") "0"
  (longIdle, largeBuffer, jsObjUpd acc.2.2 database 0 (· + 1))

/-- The body of `runConnectionCheck` after the INFO round trip succeeded. -/
def connBody (redis : Redis) (clientsInfo : List (String × String)) : CheckSection :=
  let connectedClients := infoNum clientsInfo "connected_clients"
  let blockedClients := infoNum clientsInfo "blocked_clients"
  let maxC :=
    match redis.configMaxclients with
    | .error _ =>
      ((jnum 10000, "default"),
       ["CONFIG GET maxclients unavailable (managed Redis restrictions) - using default 10000"])
    | .ok configResult =>
      if configResult.length ≥ 2 then
        ((jsParseIntN (configResult.getD 1 ""), "config"), [])
      else ((jnum 10000, "default"), [])
  let maxClients := maxC.1.1
  let clientUtilization := jmul (jdiv connectedClients maxClients) (jnum 100)
  let stage1 :=
    if jgeI clientUtilization CLIENT_USAGE_WARNING_PERCENT then
      ("warning", maxC.2 ++
        ["Client usage at " ++ formatPercent clientUtilization ++ " of maxclients - approaching limit"])
    else ("ok", maxC.2)
  let stage2 :=
    if jgtI blockedClients 0 then
      (if stage1.1 ≠ "critical" then "warning" else stage1.1, stage1.2 ++
        [formatNumber blockedClients ++ " blocked clients detected"])
    else stage1
  let scan :=
    if jleI connectedClients CLIENT_LIST_MAX_PARSE then
      match redis.clientListRaw with
      | .error _ => ((0, 0, []), false, ["CLIENT LIST command unavailable"])
      | .ok clientListRaw =>
        let clientLines := (jsSplit clientListRaw "\n").filter (fun line => jsTrim line ≠ "")
        (clientLines.foldl connScanLine (0, 0, []), false, [])
    else
      ((0, 0, []), true,
       ["CLIENT LIST parsing skipped (" ++ formatNumber connectedClients ++ " clients exceeds " ++
        formatNumberI (some CLIENT_LIST_MAX_PARSE) ++ " threshold)"])
  let longIdleClients := scan.1.1
  let largeBufferClients := scan.1.2.1
  let stage3 := (stage2.1, stage2.2 ++ scan.2.2)
  let stage4 :=
    if longIdleClients > 0 then
      (stage3.1, stage3.2 ++
        [formatNumberI (some longIdleClients) ++ " clients idle for more than 300 seconds"])
    else stage3
  let stage5 :=
    if largeBufferClients > 0 then
      (if stage4.1 ≠ "critical" then "warning" else stage4.1, stage4.2 ++
        [formatNumberI (some largeBufferClients) ++ " clients with output buffers exceeding 1 MB"])
    else stage4
  { status := stage5.1
    title := connTitle
    metrics := .connectionsM
      { connectedClients := connectedClients, blockedClients := blockedClients
        maxClients := maxClients, maxClientsSource := maxC.1.2
        clientUtilization := clientUtilization, longIdleClients := longIdleClients
        largeBufferClients := largeBufferClients, databaseDistribution := scan.1.2.2
        clientListSkipped := scan.2.1 }
    findings := stage5.2 }

def runConnectionCheck (redis : Redis) : CheckSection :=
  match redis.infoClients with
  | .error e =>
    { status := "critical", title := connTitle, metrics := .empty
      findings := ["Connection check failed: " ++ e] }
  | .ok clientsInfoRaw => connBody redis (parseInfoSection clientsInfoRaw)

-- ── Replication check (src/checks/replicationCheck.js) ──

def replTitle : String := "REPLICATION & PERSISTENCE"

/-- Lookup inside a parsed `slaveN` value, whose pairs may legitimately
hold an undefined value when a comma-piece lacks an `=`. -/
def partsGet (parts : List (String × Option String)) (k : String) : Option String :=
  match jsObjGet parts k with
  | some (some v) => some v
  | _ => none

/-- JavaScript template interpolation of a possibly-undefined value. -/
def interpOpt (v : Option String) : String := v.getD "undefined"

/-- Parse one `slaveN` INFO value (`ip=...,port=...,state=...,...`). -/
def parseSlaveInfo (slaveInfo : String) : List (String × Option String) :=
  (jsSplit slaveInfo ",").foldl
    (fun parts pair =>
      match jsIndexOfChar pair '=' with
      | none => jsObjSet parts pair none
      | some i => jsObjSet parts (strTake pair i) (some (strDrop pair (i + 1))))
    []

/-- One iteration of the replica loop (source lines 37-66): consume
`slave${index}` when present and truthy, checking lag and state. -/
def replScanSlave (replication : List (String × String))
    (acc : List Replica × String × List String) (index : Nat) :
    List Replica × String × List String :=
  match jsObjGet replication ("slave" ++ index.repr) with
  | none => acc
  | some slaveInfo =>
    if slaveInfo = "" then acc
    else
      let parts := parseSlaveInfo slaveInfo
      let replicas := acc.1 ++
        [{ ip := partsGet parts "ip", port := partsGet parts "port"
           state := partsGet parts "state"
           offset := jsParseInt (jsOrStr (partsGet parts "offset") "0")
           lag := jsParseInt (jsOrStr (partsGet parts "lag") "0") }]
      let lagTruthy :=
        match partsGet parts "lag" with
        | some s => s ≠ "" && igt (jsParseInt s) 10
        | none => false
      let afterLag :=
        if lagTruthy then
          (if acc.2.1 ≠ "critical" then "warning" else acc.2.1, acc.2.2 ++
            ["Replica " ++ interpOpt (partsGet parts "ip") ++ ":" ++ interpOpt (partsGet parts "port") ++
             " has lag of " ++ interpOpt (partsGet parts "lag") ++ " seconds"])
        else acc.2
      if partsGet parts "state" ≠ some "online" then
        (replicas, "critical", afterLag.2 ++
          ["Replica " ++ interpOpt (partsGet parts "ip") ++ ":" ++ interpOpt (partsGet parts "port") ++
           " is in state: " ++ interpOpt (partsGet parts "state")])
      else (replicas, afterLag.1, afterLag.2)

/-- The body of `runReplicationCheck` after the two INFO round trips
succeeded. -/
def replBody (redis : Redis) (replication persistence : List (String × String)) : CheckSection :=
  let role := jsOrStr (jsObjGet replication "role") "unknown"
  let connectedSlaves := jsParseInt (jsOrStr (jsObjGet replication "connected_slaves") "0")
  let loop := (List.range ((connectedSlaves.getD 0).toNat)).foldl
    (replScanSlave replication) ([], "ok", [])
  let slaveStage :=
    if role = "slave" then
      let masterLinkStatus := jsOrStr (jsObjGet replication "master_link_status") "unknown"
      let afterLink :=
        if masterLinkStatus ≠ "up" then
          ("critical", loop.2.2 ++
            ["Master link status is \"" ++ masterLinkStatus ++ "\" - replication may be broken"])
        else loop.2
      let syncInProgress := jsOrStr (jsObjGet replication "master_sync_in_progress") "0"
      if syncInProgress = "1" then
        (if afterLink.1 ≠ "critical" then "warning" else afterLink.1,
         afterLink.2 ++ ["Full sync with master is in progress"])
      else afterLink
    else loop.2
  let rdbLastSaveTime := infoInt persistence "rdb_last_save_time"
  let rdbChangesSinceLastSave := infoInt persistence "rdb_changes_since_last_save"
  let rdbLastSaveStatus := jsOrStr (jsObjGet persistence "rdb_last_bgsave_status") "unknown"
  let aofEnabled := jsObjGet persistence "aof_enabled" = some "1"
  let aofLastWriteStatus := jsOrStr (jsObjGet persistence "aof_last_write_status") "unknown"
  let loading := jsObjGet persistence "loading" = some "1"
  let timeSinceLastSave :=
    if igt rdbLastSaveTime 0 then
      (rdbLastSaveTime.map (fun t => Int.fdiv redis.nowMs 1000 - t)).getD 0
    else 0
  let stage1 :=
    if rdbLastSaveStatus = "err" then
      ("critical", slaveStage.2 ++ ["Last RDB background save failed"])
    else slaveStage
  let stage2 :=
    if aofEnabled && aofLastWriteStatus = "err" then
      ("critical", stage1.2 ++ ["Last AOF write failed"])
    else stage1
  let stage3 :=
    if loading then
      (if stage2.1 ≠ "critical" then "warning" else stage2.1,
       stage2.2 ++ ["Redis is currently loading data into memory"])
    else stage2
  { status := stage3.1
    title := replTitle
    metrics := .replicationM
      { role := role, connectedSlaves := connectedSlaves, replicas := loop.1
        rdbLastSaveTime := rdbLastSaveTime, rdbChangesSinceLastSave := rdbChangesSinceLastSave
        rdbLastSaveStatus := rdbLastSaveStatus, timeSinceLastSave := some timeSinceLastSave
        aofEnabled := aofEnabled, aofLastWriteStatus := aofLastWriteStatus, loading := loading }
    findings := stage3.2 }

def runReplicationCheck (redis : Redis) : CheckSection :=
  match promiseAll2 redis.infoReplication redis.infoPersistence with
  | .error e =>
    { status := "critical", title := replTitle, metrics := .empty
      findings := ["Replication check failed: " ++ e] }
  | .ok (replicationRaw, persistenceRaw) =>
    replBody redis (parseInfoSection replicationRaw) (parseInfoSection persistenceRaw)

-- ── Key pattern check (src/checks/keyPatternCheck.js) ──

def kpTitle : String := "KEY PATTERN ANALYSIS"

/-- Totals of the keyspace overview loop (source lines 43-57). -/
structure KeyspaceTotals where
  totalKeys : Option Int
  totalExpiring : Option Int
  databases : List (String × DbEntry)
deriving DecidableEq

/-- Walk the parsed `INFO keyspace` object accumulating per-database key
counts (only keys starting with `db` participate). -/
def readKeyspaceTotals (keyspaceInfo : List (String × String)) : KeyspaceTotals :=
  keyspaceInfo.foldl
    (fun acc kv =>
      if jsStartsWith kv.1 "db" then
        let parts := jsSplit kv.2 ","
        let keysCount := jsParseInt (jsOrStr ((parts.get? 0).bind (fun p => (jsSplit p "=").get? 1)) "0")
        let expires := jsParseInt (jsOrStr ((parts.get? 1).bind (fun p => (jsSplit p "=").get? 1)) "0")
        { totalKeys := iadd acc.totalKeys keysCount
          totalExpiring := iadd acc.totalExpiring expires
          databases := jsObjSet acc.databases kv.1 ⟨keysCount, expires⟩ }
      else acc)
    ⟨some 0, some 0, []⟩

/-- The SCAN cursor do-while loop (source lines 70-76): consume pages until
the cursor returns to `"0"` or enough keys were accumulated; an exhausted
page list behaves like an ended cursor. -/
def scanLoop (maxSampleKeys : Int) :
    List (Except String (String × List String)) → List String → Except String (List String)
  | [], acc => .ok acc
  | page :: rest, acc =>
    match page with
    | .error e => .error e
    | .ok (nextCursor, keys) =>
      let acc2 := acc ++ keys
      if nextCursor ≠ "0" && (acc2.length : Int) < maxSampleKeys then scanLoop maxSampleKeys rest acc2
      else .ok acc2

/-- Index into a pipeline reply array; an out-of-range access is
JavaScript `undefined`. -/
def jsIndex (results : List JSVal) (i : Nat) : JSVal :=
  (results.get? i).getD .undefined

/-- Aggregation state threaded through the sampling loops. -/
structure KPAgg where
  typeDistribution : List (String × TypeAgg)
  encodingDistribution : List (String × Int)
  timeToLiveDistribution : TTLDist
  keySizes : List KeySize
  nsGroups : List (String × GroupAgg)
deriving DecidableEq

def initAgg : KPAgg := ⟨[], [], ⟨0, 0, 0, 0, 0⟩, [], []⟩

/-- The fixed, exhaustive TTL bucketing chain (source lines 131-142). -/
def bumpTTL (d : TTLDist) (timeToLive : JSVal) : TTLDist :=
  if jsValEqInt timeToLive (-1) then { d with none := d.none + 1 }
  else if jsValLtInt timeToLive 3600 then { d with under1Hour := d.under1Hour + 1 }
  else if jsValLtInt timeToLive 86400 then { d with from1HourTo24Hours := d.from1HourTo24Hours + 1 }
  else if jsValLtInt timeToLive 604800 then { d with from1DayTo7Days := d.from1DayTo7Days + 1 }
  else { d with over7Days := d.over7Days + 1 }

/-- Per-key aggregation (source lines 109-156): four reply slots per key at
`keyIndex * 4`, with lenient defaults for missing or errored entries. -/
def processKeyAt (agg : KPAgg) (results : List JSVal) (keyIndex : Nat) (key : String) : KPAgg :=
  let baseOffset := keyIndex * 4
  let typeResult := jsIndex results baseOffset
  let memoryResult := jsIndex results (baseOffset + 1)
  let timeToLiveResult := jsIndex results (baseOffset + 2)
  let encodingResult := jsIndex results (baseOffset + 3)
  let keyType := jsValOrStr typeResult "unknown"
  let memoryBytes := jsValOrInt memoryResult 0
  let typeDistribution := jsObjUpd agg.typeDistribution keyType ⟨0, 0⟩
    (fun t => ⟨t.count + 1, t.totalBytes + memoryBytes⟩)
  let keySizes := agg.keySizes ++ [⟨key, keyType, memoryBytes⟩]
  let timeToLiveDistribution := bumpTTL agg.timeToLiveDistribution timeToLiveResult
  let encoding := jsValOrStr encodingResult "unknown"
  let encodingDistribution := jsObjUpd agg.encodingDistribution encoding 0 (· + 1)
  let groupKey :=
    match jsIndexOfChar key ':' with
    | some colonIndex => if colonIndex > 0 then strTake key colonIndex ++ ":*" else key
    | none => key
  let nsGroups := jsObjUpd agg.nsGroups groupKey ⟨0, 0⟩
    (fun g => ⟨g.count + 1, g.totalBytes + memoryBytes⟩)
  { typeDistribution := typeDistribution, encodingDistribution := encodingDistribution
    timeToLiveDistribution := timeToLiveDistribution, keySizes := keySizes
    nsGroups := nsGroups }

/-- Aggregate one pipelined batch, walking keys in submission order. -/
def processBatch (agg : KPAgg) (batch : List String) (results : List JSVal) : KPAgg :=
  batch.enum.foldl (fun a p => processKeyAt a results p.1 p.2) agg

/-- The sequential batch loop (source lines 96-157): one pipelined request
per batch; a thrown `exec` aborts the remaining batches. -/
def runBatches (exec : List String → Except String (List JSVal)) :
    List (List String) → KPAgg → Except String KPAgg
  | [], agg => .ok agg
  | batch :: rest, agg =>
    match exec batch with
    | .error e => .error e
    | .ok results => runBatches exec rest (processBatch agg batch results)

/-- Split a list into chunks of `n ≥ 1` elements (the `batchIndex += n`
slicing loop); `fuel` is instantiated with the list length, which always
suffices. -/
def chunksOfAux (n : Nat) : Nat → List α → List (List α)
  | _, [] => []
  | 0, l => [l]
  | fuel + 1, x :: xs => (x :: xs).take n :: chunksOfAux n fuel ((x :: xs).drop n)

def chunksOf (n : Nat) (l : List α) : List (List α) := chunksOfAux n l.length l

/-- Stable insertion into a list sorted by descending `bytes`; an element
is placed before the tail elements it compares equal to, reproducing the
stable JavaScript `sort((a, b) => b.bytes - a.bytes)`. -/
def insertByBytesDesc (x : KeySize) : List KeySize → List KeySize
  | [] => [x]
  | y :: ys => if x.bytes ≥ y.bytes then x :: y :: ys else y :: insertByBytesDesc x ys

def sortByBytesDesc : List KeySize → List KeySize
  | [] => []
  | x :: xs => insertByBytesDesc x (sortByBytesDesc xs)

/-- The analogous stable descending sort of the group entries by
`totalBytes` (`sort((a, b) => b[1].totalBytes - a[1].totalBytes)`). -/
def insertGroupDesc (x : String × GroupAgg) :
    List (String × GroupAgg) → List (String × GroupAgg)
  | [] => [x]
  | y :: ys =>
    if x.2.totalBytes ≥ y.2.totalBytes then x :: y :: ys else y :: insertGroupDesc x ys

def sortGroupsDesc : List (String × GroupAgg) → List (String × GroupAgg)
  | [] => []
  | x :: xs => insertGroupDesc x (sortGroupsDesc xs)

/-- `options.scanCount || DEFAULT_SCAN_COUNT` (source line 36). -/
def kpMaxSampleKeys (scanCount : Option Int) : Int :=
  match scanCount with
  | some n => if n = 0 then DEFAULT_SCAN_COUNT else n
  | none => DEFAULT_SCAN_COUNT

/-- The overshoot truncation (source lines 79-81); a negative sample size
would make JavaScript throw on the length assignment, a corner no caller
reaches, and truncates to the empty sample here. -/
def trimSample (maxSampleKeys : Int) (scanned : List String) : List String :=
  if (scanned.length : Int) > maxSampleKeys then scanned.take maxSampleKeys.toNat else scanned

/-- The try-block of `runKeyPatternCheck`; a thrown command surfaces as
`.error` and is converted by the catch wrapper below. -/
def kpBody (redis : Redis) (scanCount : Option Int) : Except String CheckSection :=
  let maxSampleKeys := kpMaxSampleKeys scanCount
  match redis.infoKeyspace with
  | .error e => .error e
  | .ok keyspaceRaw =>
    let totals := readKeyspaceTotals (parseInfoSection keyspaceRaw)
    if totals.totalKeys = some 0 then
      .ok { status := "ok", title := kpTitle
            metrics := .keyPatternsEmpty 0 totals.databases
            findings := ["No keys found in this Redis instance"] }
    else
      match scanLoop maxSampleKeys redis.scanPages [] with
      | .error e => .error e
      | .ok scanned =>
        let sampledKeys := trimSample maxSampleKeys scanned
        match runBatches redis.pipelineExec (chunksOf PIPELINE_BATCH_SIZE.toNat sampledKeys) initAgg with
        | .error e => .error e
        | .ok agg =>
          let topKeys := (sortByBytesDesc agg.keySizes).take TOP_KEYS_COUNT.toNat
          let noTimeToLivePercent :=
            if sampledKeys.length > 0 then
              jmul (jdiv (jnum agg.timeToLiveDistribution.none) (jnum (sampledKeys.length : Int)))
                (jnum 100)
            else jnum 0
          let stage :=
            if jgeI noTimeToLivePercent NO_TTL_WARNING_PERCENT then
              ("warning",
               [formatPercent noTimeToLivePercent ++
                " of sampled keys have no TTL - potential memory growth risk"])
            else ("ok", [])
          let sortedGroups := (sortGroupsDesc agg.nsGroups).take 15
          .ok { status := stage.1
                title := kpTitle
                metrics := .keyPatternsM
                  { totalKeys := totals.totalKeys, totalExpiring := totals.totalExpiring
                    databases := totals.databases, sampledCount := sampledKeys.length
                    typeDistribution := agg.typeDistribution
                    encodingDistribution := agg.encodingDistribution
                    timeToLiveDistribution := agg.timeToLiveDistribution
                    topKeys := topKeys, noTimeToLivePercent := noTimeToLivePercent
                    sortedGroups := sortedGroups }
                findings := stage.2 }

def runKeyPatternCheck (redis : Redis) (scanCount : Option Int) : CheckSection :=
  match kpBody redis scanCount with
  | .ok sec => sec
  | .error e =>
    { status := "critical", title := kpTitle, metrics := .empty
      findings := ["Key pattern check failed: " ++ e] }

-- ── Analysis orchestrator (src/commands/analyze.js) ──

structure ServerInfo where
  redisVersion : String
  uptimeSeconds : Option Int
deriving DecidableEq

/-- The `results` object of `runAnalysis`; `keyPatterns` is present only
when scanning was not disabled. -/
structure AnalysisResults where
  memory : CheckSection
  performance : CheckSection
  connections : CheckSection
  replication : CheckSection
  keyPatterns : Option CheckSection
deriving DecidableEq

structure Analysis where
  results : AnalysisResults
  serverInfo : ServerInfo
  warnings : Nat
  criticals : Nat
deriving DecidableEq

/-- `Object.values(results)` in insertion order (memory, performance,
connections, replication, then keyPatterns when present). -/
def resultsList (r : AnalysisResults) : List CheckSection :=
  [r.memory, r.performance, r.connections, r.replication] ++
    (match r.keyPatterns with
     | some k => [k]
     | none => [])

/-- The severity counting loop of `runAnalysis` (source lines 179-188). -/
def countSeverities (l : List CheckSection) : Nat × Nat :=
  l.foldl
    (fun wc result =>
      (if result.status = "warning" then wc.1 + 1 else wc.1,
       if result.status = "critical" then wc.2 + 1 else wc.2))
    (0, 0)

/-- The command-line options consumed by `runAnalysis`. -/
structure AnalysisOptions where
  noScan : Bool
  scanCount : Int
deriving DecidableEq

/-- `runAnalysis` (source lines 144-191): the identity probe is the only
fatal failure; every evaluator yields a section even when its commands
throw, and the merged severity counts derive solely from section status. -/
def runAnalysis (redis : Redis) (opts : AnalysisOptions) : Except String Analysis :=
  match redis.infoServer with
  | .error e => .error e
  | .ok serverRaw =>
    let serverInfo := parseInfoSection serverRaw
    let redisVersion := jsOrStr (jsObjGet serverInfo "redis_version") "unknown"
    let uptimeSeconds := jsParseInt (jsOrStr (jsObjGet serverInfo "uptime_in_seconds") "0")
    let results : AnalysisResults :=
      { memory := runMemoryCheck redis
        performance := runPerformanceCheck redis
        connections := runConnectionCheck redis
        replication := runReplicationCheck redis
        keyPatterns :=
          if opts.noScan then none
          else some (runKeyPatternCheck redis (some opts.scanCount)) }
    let wc := countSeverities (resultsList results)
    .ok { results := results
          serverInfo := { redisVersion := redisVersion, uptimeSeconds := uptimeSeconds }
          warnings := wc.1
          criticals := wc.2 }

/-- The single-run exit signal (source line 437):
`criticals > 0 ? 2 : warnings > 0 ? 1 : 0`. -/
def exitCode (analysis : Analysis) : Nat :=
  if analysis.criticals > 0 then 2 else if analysis.warnings > 0 then 1 else 0

-- ── Delta formatting (src/utils/comparison.js) ──

/-- colorette `green` (ANSI 32/39). -/
def green (text : String) : String := "\x1b[32m" ++ text ++ "\x1b[39m"

/-- colorette `red` (ANSI 31/39). -/
def red (text : String) : String := "\x1b[31m" ++ text ++ "\x1b[39m"

/-- colorette `dim` (ANSI 2/22). -/
def dim (text : String) : String := "\x1b[2m" ++ text ++ "\x1b[22m"

/-- The local `direction` arrow of `formatDelta` (source line 47). -/
def deltaDirection (delta : JSQ) : String :=
  if (JSQ.ofInt 0).blt delta then "↑" else "↓"

/-- The local `isGood` flag of `formatDelta` (source line 49). -/
def deltaIsGood (delta : JSQ) (higherIsBetter : Bool) : Bool :=
  if higherIsBetter then (JSQ.ofInt 0).blt delta else delta.blt (JSQ.ofInt 0)

/-- `formatDelta` (source lines 39-53). -/
def formatDelta (current previous : JSQ) (higherIsBetter : Bool)
    (formatter : JSQ → String) : String :=
  let delta := current.sub previous
  if delta.beq (JSQ.ofInt 0) then dim "→ unchanged"
  else
    let direction := deltaDirection delta
    let absFormatted := formatter delta.abs
    let color := if deltaIsGood delta higherIsBetter then green else red
    color (direction ++ " " ++ absFormatted)

-- ── Recommendation engine (src/utils/recommendations.js) ──

structure RecommendationRule where
  frags : List String
  title : String
  actions : List String
deriving DecidableEq

structure Recommendation where
  title : String
  actions : List String
deriving DecidableEq

def firstOccAux (needle : List Char) : List Char → Option Nat
  | [] => if needle.isEmpty then some 0 else none
  | c :: rest =>
    if needle.isPrefixOf (c :: rest) then some 0
    else (firstOccAux needle rest).map (· + 1)

/-- Ordered-fragment matching: every rule pattern in the static table is a
sequence of literal fragments joined by `.*` under the `i` flag, for which
greedy first-occurrence search is complete. -/
def fragsMatch : List (List Char) → List Char → Bool
  | [], _ => true
  | f :: fs, hay =>
    match firstOccAux f hay with
    | none => false
    | some i => fragsMatch fs (hay.drop (i + f.length))

/-- `pattern.test(finding)` for the case-insensitive literal-fragment
patterns of the rule table. -/
def patternTest (frags : List String) (finding : String) : Bool :=
  fragsMatch (frags.map (fun f => f.toList.map Char.toLower))
    (finding.toList.map Char.toLower)

/-- The static rule table `RECOMMENDATION_MAP`, with each regex decomposed
into its literal fragments. -/
def RECOMMENDATION_MAP : List RecommendationRule := [
  { frags := ["fragmentation ratio", "is high"]
    title := "Reduce memory fragmentation"
    actions := [
      "Run MEMORY PURGE (Redis 4.0+) to release allocator pages",
      "If persistent, schedule a controlled restart during low-traffic window",
      "Consider switching to jemalloc allocator if using libc malloc"] },
  { frags := ["memory usage at ", " of maxmemory"]
    title := "Free up memory or increase maxmemory"
    actions := [
      "Review keys with no TTL — add expiration where possible",
      "Check for oversized keys with the Key Pattern Analysis section",
      "If expected growth, increase maxmemory or scale the instance"] },
  { frags := ["evicted keys detected"]
    title := "Address key evictions"
    actions := [
      "Evictions mean Redis is dropping data to stay within limits",
      "Increase maxmemory or reduce data volume",
      "Review eviction policy — volatile-lru is safest for cache workloads"] },
  { frags := ["fragmentation ratio", "is critically high"]
    title := "Critical memory fragmentation"
    actions := [
      "Immediate MEMORY PURGE recommended",
      "If ratio exceeds 3.0, plan a restart — allocator is severely fragmented",
      "Monitor after fix to confirm it does not re-fragment quickly"] },
  { frags := ["hit rate ", " is below optimal"]
    title := "Improve cache hit rate"
    actions := [
      "Review application cache key patterns for consistency",
      "Check if TTLs are too short, causing premature expiration",
      "Verify cache warming on deployment if using lazy population"] },
  { frags := ["hit rate ", " is critically low"]
    title := "Critical cache hit rate"
    actions := [
      "Audit application code for cache key mismatches or typos",
      "Check if a recent deployment changed key naming conventions",
      "Consider preloading hot keys on startup"] },
  { frags := ["slow log entries", "indicates systemic slow commands"]
    title := "Address slow commands"
    actions := [
      "Review the Slow Log table above for recurring command patterns",
      "Replace O(N) commands (KEYS, SMEMBERS on large sets) with SCAN variants",
      "Check for Lua scripts that block the event loop"] },
  { frags := ["connections rejected"]
    title := "Increase maxclients or reduce connections"
    actions := [
      "Increase maxclients in Redis config if the instance has capacity",
      "Implement connection pooling in application clients",
      "Audit for connection leaks (clients not calling QUIT)"] },
  { frags := ["client usage at ", " of maxclients"]
    title := "Client pool nearing capacity"
    actions := [
      "Increase maxclients if the server has available file descriptors",
      "Review application connection pool sizes across all services",
      "Close idle connections — see idle client count above"] },
  { frags := ["clients idle for more than"]
    title := "Clean up idle connections"
    actions := [
      "Configure client timeout in Redis (CONFIG SET timeout 300)",
      "Review application connection pool idle settings",
      "Idle clients consume memory and file descriptors"] },
  { frags := ["clients with output buffers exceeding"]
    title := "Investigate large output buffers"
    actions := [
      "Large buffers indicate slow consumers or massive responses",
      "Check for SUBSCRIBE clients that are not reading fast enough",
      "Review commands returning large datasets (LRANGE on long lists, etc.)"] },
  { frags := ["blocked clients detected"]
    title := "Investigate blocked clients"
    actions := [
      "Blocked clients are waiting on BLPOP, BRPOP, or similar commands",
      "High counts may indicate stalled consumers or long-running blocking operations",
      "Check if blocking commands have appropriate timeouts"] },
  { frags := ["keys have no TTL", "memory growth risk"]
    title := "Add TTLs to reduce memory leak risk"
    actions := [
      "Identify key groups without expiration in the Key Pattern section",
      "Add TTL to cache keys that do not need permanent storage",
      "Use EXPIRE or SETEX instead of plain SET for cache entries"] },
  { frags := ["replica ", " has lag of"]
    title := "Reduce replication lag"
    actions := [
      "Check network latency between master and replica",
      "Reduce write volume if replica cannot keep up",
      "Consider increasing repl-backlog-size to avoid full resyncs"] },
  { frags := ["master link status is"]
    title := "Fix broken replication link"
    actions := [
      "Check network connectivity between master and replica",
      "Review replica logs for authentication or timeout errors",
      "A full resync may be needed if the backlog has been exhausted"] },
  { frags := ["last RDB background save failed"]
    title := "Fix RDB persistence"
    actions := [
      "Check disk space on the Redis server",
      "Review Redis logs for the specific save error",
      "Ensure the Redis process has write permissions to the RDB directory"] },
  { frags := ["last AOF write failed"]
    title := "Fix AOF persistence"
    actions := [
      "Check disk space and I/O performance",
      "Review appendfsync setting — everysec is recommended for most workloads",
      "If disk is full, clear space and run BGREWRITEAOF"] }]

/-- One rule's test against one finding, with the accumulated
recommendation list and dedup set. -/
def ruleStep (finding : String) (state2 : List Recommendation × List String)
    (rule : RecommendationRule) : List Recommendation × List String :=
  if patternTest rule.frags finding && !(state2.2.contains rule.title) then
    (state2.1 ++ [{ title := rule.title, actions := rule.actions }], state2.2 ++ [rule.title])
  else state2

/-- One finding's pass over the rule table. -/
def applyRules (state : List Recommendation × List String) (finding : String) :
    List Recommendation × List String :=
  RECOMMENDATION_MAP.foldl (ruleStep finding) state

/-- `generateRecommendations` (source lines 178-193): flatten all
findings in section order and fold them through the rule table with the
title dedup set. -/
def generateRecommendations (sections : List CheckSection) : List Recommendation :=
  ((sections.flatMap (fun sec => sec.findings)).foldl applyRules ([], [])).1

-- ── Invariants of the key-sampling aggregation ──

/-- Total number of keys counted over the five TTL buckets. -/
def ttlSum (d : TTLDist) : Int :=
  d.none + d.under1Hour + d.from1HourTo24Hours + d.from1DayTo7Days + d.over7Days

-- ── Witness fixtures: small concrete adapters and their computed values ──

/-- A small healthy adapter: two keys, both without TTL. -/
def wKRedis : Redis :=
  { infoServer := .ok "redis_version:7.0.0"
    infoServerPerf := .error "s2"
    infoMemory := .error "m"
    infoStats := .error "s"
    infoClients := .error "c"
    infoReplication := .error "r"
    infoPersistence := .error "p"
    infoKeyspace := .ok "db0:keys=2"
    configMaxclients := .error "cfg"
    clientListRaw := .error "cl"
    slowlog := .error "sl"
    scanPages := [.ok ("0", ["a:1", "b"])]
    pipelineExec := fun batch => .ok (batch.flatMap (fun _ =>
      [.str "string", .num 10, .num (-1), .str "embstr"]))
    nowMs := 0 }

/-- The metrics `runKeyPatternCheck wKRedis (some 10)` computes. -/
def wKM : KPMetrics :=
  { totalKeys := some 2, totalExpiring := some 0
    databases := [("db0", ⟨some 2, some 0⟩)]
    sampledCount := 2
    typeDistribution := [("string", ⟨2, 20⟩)]
    encodingDistribution := [("embstr", 2)]
    timeToLiveDistribution := ⟨2, 0, 0, 0, 0⟩
    topKeys := [⟨"a:1", "string", 10⟩, ⟨"b", "string", 10⟩]
    noTimeToLivePercent := some ⟨200, 2⟩
    sortedGroups := [("a:*", ⟨1, 10⟩), ("b", ⟨1, 10⟩)] }

/-- The section `runKeyPatternCheck wKRedis (some 10)` computes. -/
def wKSec : CheckSection :=
  { status := "warning", title := kpTitle, metrics := .keyPatternsM wKM
    findings := ["100.0% of sampled keys have no TTL - potential memory growth risk"] }

/-- The adapter showing the top-N length is bounded by the keys actually
sampled, not by the requested sample size: the scan yields a single key
while three are requested. -/
def c4Redis : Redis :=
  { wKRedis with
    infoKeyspace := .ok "db0:keys=5,expires=0"
    scanPages := [.ok ("0", ["onlykey"])] }

def kpTopKeysLen (sec : CheckSection) : Option Nat :=
  match sec.metrics with
  | .keyPatternsM m => some m.topKeys.length
  | _ => none

/-- The empty-store adapter: the keyspace probe reports zero keys while
the scan would still offer a page (which must stay unread). -/
def wEmptyRedis : Redis :=
  { wKRedis with
    infoKeyspace := .ok "db0:keys=0,expires=0"
    scanPages := [.ok ("0", ["ghost"])] }

/-- One key whose pipeline entries are all missing (`exec` replies with an
empty array). -/
def c8Redis : Redis :=
  { wKRedis with
    infoKeyspace := .ok "db0:keys=1,expires=0"
    scanPages := [.ok ("0", ["user:1"])]
    pipelineExec := fun _ => .ok [] }

def kpTypeDist (sec : CheckSection) : Option (List (String × TypeAgg)) :=
  match sec.metrics with
  | .keyPatternsM m => some m.typeDistribution
  | _ => none

def kpEncDist (sec : CheckSection) : Option (List (String × Int)) :=
  match sec.metrics with
  | .keyPatternsM m => some m.encodingDistribution
  | _ => none

def kpTTLDist (sec : CheckSection) : Option TTLDist :=
  match sec.metrics with
  | .keyPatternsM m => some m.timeToLiveDistribution
  | _ => none

def kpGroups (sec : CheckSection) : Option (List (String × GroupAgg)) :=
  match sec.metrics with
  | .keyPatternsM m => some m.sortedGroups
  | _ => none

def kpSampled (sec : CheckSection) : Option Nat :=
  match sec.metrics with
  | .keyPatternsM m => some m.sampledCount
  | _ => none

def sectionHitRate (sec : CheckSection) : Option JNum :=
  match sec.metrics with
  | .performanceM pm => some pm.hitRate
  | _ => none

/-- The analysis computed on the degraded witness adapter: every
evaluator's commands fail, so all four mandatory sections are critical. -/
def wAnalysis : Analysis :=
  { results :=
      { memory := { status := "critical", title := memTitle, metrics := .empty
                    findings := ["Memory check failed: m"] }
        performance := { status := "critical", title := perfTitle, metrics := .empty
                         findings := ["Performance check failed: s"] }
        connections := { status := "critical", title := connTitle, metrics := .empty
                         findings := ["Connection check failed: c"] }
        replication := { status := "critical", title := replTitle, metrics := .empty
                         findings := ["Replication check failed: r"] }
        keyPatterns := none }
    serverInfo := { redisVersion := "7.0.0", uptimeSeconds := some 0 }
    warnings := 0
    criticals := 4 }

/-- The key-pattern adapter whose keyspace probe throws. -/
def wKPErrRedis : Redis := { wKRedis with infoKeyspace := .error "k" }

/-- The adapter whose SCAN page throws (keyspace probe succeeds). -/
def wScanErrRedis : Redis := { wKRedis with scanPages := [.error "sc"] }

/-- The adapter whose pipelined fetch throws (probe and scan succeed). -/
def wExecErrRedis : Redis := { wKRedis with pipelineExec := fun _ => .error "px" }

/-- The adapter whose stats probe succeeds while the performance check's
own `INFO server` round trip throws. -/
def wPerfSrvRedis : Redis := { wKRedis with infoStats := .ok "" }

/-- The adapter whose replication probe succeeds while the persistence
probe alone throws. -/
def wPersistErrRedis : Redis := { wKRedis with infoReplication := .ok "" }

theorem ttlSum_bumpTTL (d : TTLDist) (v : JSVal) : ttlSum (bumpTTL d v) = ttlSum d + 1 := by
  unfold bumpTTL
  split_ifs <;> simp [ttlSum] <;> ring

theorem bumpTTL_cases (d : TTLDist) (v : JSVal) :
    bumpTTL d v = { d with none := d.none + 1 } ∨
    bumpTTL d v = { d with under1Hour := d.under1Hour + 1 } ∨
    bumpTTL d v = { d with from1HourTo24Hours := d.from1HourTo24Hours + 1 } ∨
    bumpTTL d v = { d with from1DayTo7Days := d.from1DayTo7Days + 1 } ∨
    bumpTTL d v = { d with over7Days := d.over7Days + 1 } := by
  unfold bumpTTL
  split_ifs <;> simp

theorem processKeyAt_ttlSum (agg : KPAgg) (results : List JSVal) (i : Nat) (key : String) :
    ttlSum (processKeyAt agg results i key).timeToLiveDistribution =
      ttlSum agg.timeToLiveDistribution + 1 := by
  unfold processKeyAt
  exact ttlSum_bumpTTL _ _

theorem processKeyAt_keySizes (agg : KPAgg) (results : List JSVal) (i : Nat) (key : String) :
    (processKeyAt agg results i key).keySizes.length = agg.keySizes.length + 1 := by
  unfold processKeyAt
  simp

theorem foldl_enumStep_inv (step : KPAgg → Nat × String → KPAgg)
    (hT : ∀ a p, ttlSum (step a p).timeToLiveDistribution = ttlSum a.timeToLiveDistribution + 1)
    (hK : ∀ a p, (step a p).keySizes.length = a.keySizes.length + 1) :
    ∀ (ps : List (Nat × String)) (agg : KPAgg),
      ttlSum (ps.foldl step agg).timeToLiveDistribution =
        ttlSum agg.timeToLiveDistribution + ps.length ∧
      (ps.foldl step agg).keySizes.length = agg.keySizes.length + ps.length := by
  intro ps
  induction ps with
  | nil => intro agg; simp
  | cons p ps ih =>
    intro agg
    have h := ih (step agg p)
    constructor
    · rw [List.foldl_cons, h.1, hT]; simp only [List.length_cons]; push_cast; ring
    · rw [List.foldl_cons, h.2, hK]; simp only [List.length_cons]; ring

theorem processBatch_inv (agg : KPAgg) (batch : List String) (results : List JSVal) :
    ttlSum (processBatch agg batch results).timeToLiveDistribution =
      ttlSum agg.timeToLiveDistribution + batch.length ∧
    (processBatch agg batch results).keySizes.length = agg.keySizes.length + batch.length := by
  unfold processBatch
  have h := foldl_enumStep_inv (fun a p => processKeyAt a results p.1 p.2)
    (fun a p => processKeyAt_ttlSum a results p.1 p.2)
    (fun a p => processKeyAt_keySizes a results p.1 p.2) batch.enum agg
  simpa using h

/-- The pipelined-batch loop preserves the counting invariants batch by
batch, whatever the adapter replies. -/
theorem runBatches_inv (exec : List String → Except String (List JSVal)) :
    ∀ (chunks : List (List String)) (agg agg' : KPAgg),
      runBatches exec chunks agg = .ok agg' →
      ttlSum agg'.timeToLiveDistribution =
        ttlSum agg.timeToLiveDistribution + ((chunks.map List.length).sum : Int) ∧
      agg'.keySizes.length = agg.keySizes.length + (chunks.map List.length).sum := by
  intro chunks
  induction chunks with
  | nil =>
    intro agg agg' h
    simp only [runBatches] at h
    cases h
    simp
  | cons batch rest ih =>
    intro agg agg' h
    simp only [runBatches] at h
    cases hexec : exec batch with
    | error e => rw [hexec] at h; cases h
    | ok results =>
      rw [hexec] at h
      have step := ih (processBatch agg batch results) agg' h
      have pb := processBatch_inv agg batch results
      refine ⟨?_, ?_⟩
      · rw [step.1, pb.1]; simp only [List.map_cons, List.sum_cons]; push_cast; ring
      · rw [step.2, pb.2]; simp only [List.map_cons, List.sum_cons]; ring

theorem chunksOfAux_flatten (n : Nat) (hn : 0 < n) :
    ∀ (fuel : Nat) (l : List α), l.length ≤ fuel → (chunksOfAux n fuel l).flatten = l := by
  intro fuel
  induction fuel with
  | zero =>
    intro l hl
    have : l = [] := List.length_eq_zero.mp (Nat.le_zero.mp hl)
    subst this
    simp [chunksOfAux]
  | succ f ih =>
    intro l hl
    cases l with
    | nil => simp [chunksOfAux]
    | cons x xs =>
      have hdrop : ((x :: xs).drop n).length ≤ f := by
        simp only [List.length_drop, List.length_cons]
        simp only [List.length_cons] at hl
        omega
      simp only [chunksOfAux, List.flatten_cons, ih _ hdrop]
      exact List.take_append_drop n (x :: xs)

theorem chunksOf_flatten (n : Nat) (hn : 0 < n) (l : List α) :
    (chunksOf n l).flatten = l :=
  chunksOfAux_flatten n hn l.length l le_rfl

theorem chunksOf_sum_lengths (n : Nat) (hn : 0 < n) (l : List α) :
    ((chunksOf n l).map List.length).sum = l.length := by
  have h := congrArg List.length (chunksOf_flatten n hn l)
  simpa [List.length_flatten] using h

/-- Characterisation of a key-pattern run that reached the sampling stage:
its section and metrics are exactly the values assembled from the
aggregation state of some sampled key list. -/
theorem kp_success_inv (redis : Redis) (sc : Option Int) (sec : CheckSection) (m : KPMetrics)
    (hrun : runKeyPatternCheck redis sc = sec) (hm : sec.metrics = .keyPatternsM m) :
    ∃ (sampledKeys : List String) (agg : KPAgg),
      runBatches redis.pipelineExec (chunksOf PIPELINE_BATCH_SIZE.toNat sampledKeys) initAgg =
        .ok agg ∧
      m.sampledCount = sampledKeys.length ∧
      m.timeToLiveDistribution = agg.timeToLiveDistribution ∧
      m.topKeys = (sortByBytesDesc agg.keySizes).take TOP_KEYS_COUNT.toNat ∧
      m.noTimeToLivePercent =
        (if sampledKeys.length > 0 then
          jmul (jdiv (jnum agg.timeToLiveDistribution.none) (jnum (sampledKeys.length : Int)))
            (jnum 100)
        else jnum 0) ∧
      sec.status =
        (if jgeI m.noTimeToLivePercent NO_TTL_WARNING_PERCENT then "warning" else "ok") ∧
      sec.findings =
        (if jgeI m.noTimeToLivePercent NO_TTL_WARNING_PERCENT then
          [formatPercent m.noTimeToLivePercent ++
           " of sampled keys have no TTL - potential memory growth risk"]
        else []) := by
  unfold runKeyPatternCheck at hrun
  cases hbody : kpBody redis sc with
  | error e =>
    rw [hbody] at hrun
    rw [← hrun] at hm
    simp at hm
  | ok s =>
    rw [hbody] at hrun
    subst hrun
    unfold kpBody at hbody
    cases hks : redis.infoKeyspace with
    | error e => rw [hks] at hbody; cases hbody
    | ok keyspaceRaw =>
      rw [hks] at hbody
      simp only at hbody
      by_cases hzero :
          (readKeyspaceTotals (parseInfoSection keyspaceRaw)).totalKeys = some 0
      · rw [if_pos hzero] at hbody
        cases hbody
        simp at hm
      · rw [if_neg hzero] at hbody
        cases hscan : scanLoop (kpMaxSampleKeys sc) redis.scanPages [] with
        | error e => rw [hscan] at hbody; cases hbody
        | ok scanned =>
          rw [hscan] at hbody
          simp only at hbody
          cases hagg : runBatches redis.pipelineExec
              (chunksOf PIPELINE_BATCH_SIZE.toNat (trimSample (kpMaxSampleKeys sc) scanned))
              initAgg with
          | error e => rw [hagg] at hbody; cases hbody
          | ok agg =>
            rw [hagg] at hbody
            simp only [Except.ok.injEq] at hbody
            subst hbody
            refine ⟨trimSample (kpMaxSampleKeys sc) scanned, agg, hagg, ?_⟩
            simp only [Metrics.keyPatternsM.injEq] at hm
            subst hm
            simp
            constructor <;> split <;> split <;> rfl

-- ── Properties of the stable descending sort ──

theorem mem_insertByBytesDesc (x a : KeySize) (l : List KeySize) :
    a ∈ insertByBytesDesc x l ↔ a = x ∨ a ∈ l := by
  induction l with
  | nil => simp [insertByBytesDesc]
  | cons y ys ih =>
    unfold insertByBytesDesc
    split
    · simp
    · simp [ih]
      tauto

theorem pairwise_insertByBytesDesc (x : KeySize) (l : List KeySize)
    (h : l.Pairwise (fun a b => b.bytes ≤ a.bytes)) :
    (insertByBytesDesc x l).Pairwise (fun a b => b.bytes ≤ a.bytes) := by
  induction l with
  | nil => simp [insertByBytesDesc]
  | cons y ys ih =>
    unfold insertByBytesDesc
    rw [List.pairwise_cons] at h
    split
    · rename_i hge
      rw [List.pairwise_cons]
      refine ⟨?_, List.pairwise_cons.mpr h⟩
      intro a ha
      rcases List.mem_cons.mp ha with ha | ha
      · subst ha; omega
      · exact le_trans (h.1 a ha) hge
    · rename_i hlt
      rw [List.pairwise_cons]
      refine ⟨?_, ih h.2⟩
      intro a ha
      rcases (mem_insertByBytesDesc x a ys).mp ha with ha | ha
      · subst ha; omega
      · exact h.1 a ha

theorem length_insertByBytesDesc (x : KeySize) (l : List KeySize) :
    (insertByBytesDesc x l).length = l.length + 1 := by
  induction l with
  | nil => simp [insertByBytesDesc]
  | cons y ys ih =>
    unfold insertByBytesDesc
    split <;> simp [ih]

theorem pairwise_sortByBytesDesc (l : List KeySize) :
    (sortByBytesDesc l).Pairwise (fun a b => b.bytes ≤ a.bytes) := by
  induction l with
  | nil => simp [sortByBytesDesc]
  | cons x xs ih => exact pairwise_insertByBytesDesc x _ ih

theorem length_sortByBytesDesc (l : List KeySize) :
    (sortByBytesDesc l).length = l.length := by
  induction l with
  | nil => rfl
  | cons x xs ih => simp [sortByBytesDesc, length_insertByBytesDesc, ih]

theorem filter_insertByBytesDesc (x : KeySize) (l : List KeySize) (b : Int) :
    (insertByBytesDesc x l).filter (fun y => y.bytes == b) =
      if x.bytes == b then x :: l.filter (fun y => y.bytes == b)
      else l.filter (fun y => y.bytes == b) := by
  induction l with
  | nil =>
    simp only [insertByBytesDesc, List.filter]
    split <;> simp_all
  | cons y ys ih =>
    unfold insertByBytesDesc
    split
    · rename_i hge
      by_cases hxb : x.bytes == b <;> simp [List.filter_cons, hxb]
    · rename_i hlt
      have hy : x.bytes < y.bytes := by omega
      by_cases hxb : x.bytes == b
      · have hyb : (y.bytes == b) = false := by
          simp only [beq_iff_eq] at hxb
          simp only [beq_eq_false_iff_ne]
          omega
        simp only [List.filter_cons, ih, hxb, hyb]
        simp
      · simp only [List.filter_cons, ih, hxb]
        simp [hxb]

/-- Stability of the sort: for every byte size, the keys of that size
appear in the sorted list exactly in their original encounter order. -/
theorem filter_sortByBytesDesc (l : List KeySize) (b : Int) :
    (sortByBytesDesc l).filter (fun y => y.bytes == b) =
      l.filter (fun y => y.bytes == b) := by
  induction l with
  | nil => rfl
  | cons x xs ih =>
    simp only [sortByBytesDesc, filter_insertByBytesDesc, List.filter_cons, ih]

-- ── C3: TTL buckets partition the truncated sample ──

/-- C3.  Every sampled key lands in exactly one of the five fixed TTL
buckets (per-key, the bucketing chain increments exactly one bucket), so
for every key-sampling run that reaches aggregation the five bucket
counts sum to the number of keys in the truncated sample. -/
theorem ttl_buckets_partition :
    (∀ (d : TTLDist) (v : JSVal),
      ttlSum (bumpTTL d v) = ttlSum d + 1 ∧
      (bumpTTL d v = { d with none := d.none + 1 } ∨
       bumpTTL d v = { d with under1Hour := d.under1Hour + 1 } ∨
       bumpTTL d v = { d with from1HourTo24Hours := d.from1HourTo24Hours + 1 } ∨
       bumpTTL d v = { d with from1DayTo7Days := d.from1DayTo7Days + 1 } ∨
       bumpTTL d v = { d with over7Days := d.over7Days + 1 })) ∧
    (∀ (redis : Redis) (sc : Option Int) (m : KPMetrics),
      (runKeyPatternCheck redis sc).metrics = .keyPatternsM m →
      ttlSum m.timeToLiveDistribution = (m.sampledCount : Int)) := by
  constructor
  · exact fun d v => ⟨ttlSum_bumpTTL d v, bumpTTL_cases d v⟩
  · intro redis sc m hm
    obtain ⟨sampled, agg, hagg, hcount, httl, -⟩ :=
      kp_success_inv redis sc (runKeyPatternCheck redis sc) m rfl hm
    have hinv := runBatches_inv redis.pipelineExec _ _ _ hagg
    have hsum : ((chunksOf PIPELINE_BATCH_SIZE.toNat sampled).map List.length).sum =
        sampled.length :=
      chunksOf_sum_lengths _ (by decide) sampled
    rw [httl, hinv.1, hsum, hcount]
    simp [initAgg, ttlSum]

/-- Witness for C3 at the concrete two-key adapter. -/
theorem ttl_buckets_partition_witness :
    ttlSum wKM.timeToLiveDistribution = (wKM.sampledCount : Int) :=
  ttl_buckets_partition.2 wKRedis (some 10) wKM (by decide)

-- ── C4: top-N list shape ──

/-- Counterexample to C4 as stated: with a requested sample size of 3 and
a keyspace whose scan yields a single key, the top-N list has length 1,
not `min(sampleSize, 20) = 3`. -/
theorem topn_length_counterexample :
    kpTopKeysLen (runKeyPatternCheck c4Redis (some 3)) = some 1 ∧
      (1 : Nat) ≠ min 3 TOP_KEYS_COUNT.toNat := by
  constructor
  · decide
  · decide

/-- C4 (amended).  The top-N list is the 20-element truncation of the
stable descending sort of the sampled sizes: it is sorted non-increasingly
by size and has length `min(actualSampledCount, 20)` — which equals
`min(sampleSize, 20)` exactly when the scan accumulated at least
`sampleSize` keys; and the underlying sort is stable, keeping equal-sized
keys in their original encounter order. -/
theorem topn_sorted_and_length :
    (∀ (redis : Redis) (sc : Option Int) (m : KPMetrics),
      (runKeyPatternCheck redis sc).metrics = .keyPatternsM m →
      m.topKeys.Pairwise (fun a b => b.bytes ≤ a.bytes) ∧
      m.topKeys.length = min m.sampledCount TOP_KEYS_COUNT.toNat) ∧
    (∀ (l : List KeySize),
      (sortByBytesDesc l).Pairwise (fun a b => b.bytes ≤ a.bytes) ∧
      (sortByBytesDesc l).length = l.length ∧
      ∀ b : Int, (sortByBytesDesc l).filter (fun y => y.bytes == b) =
        l.filter (fun y => y.bytes == b)) := by
  constructor
  · intro redis sc m hm
    obtain ⟨sampled, agg, hagg, hcount, -, htop, -⟩ :=
      kp_success_inv redis sc (runKeyPatternCheck redis sc) m rfl hm
    have hinv := runBatches_inv redis.pipelineExec _ _ _ hagg
    have hsum : ((chunksOf PIPELINE_BATCH_SIZE.toNat sampled).map List.length).sum =
        sampled.length :=
      chunksOf_sum_lengths _ (by decide) sampled
    have hks : agg.keySizes.length = sampled.length := by
      rw [hinv.2, hsum]; simp [initAgg]
    constructor
    · rw [htop]
      exact (pairwise_sortByBytesDesc agg.keySizes).sublist (List.take_sublist _ _)
    · rw [htop, List.length_take, length_sortByBytesDesc, hks, hcount, Nat.min_comm]
  · intro l
    exact ⟨pairwise_sortByBytesDesc l, length_sortByBytesDesc l, filter_sortByBytesDesc l⟩

/-- Witness for the amended C4 at the concrete two-key adapter. -/
theorem topn_sorted_and_length_witness :
    wKM.topKeys.Pairwise (fun a b => b.bytes ≤ a.bytes) ∧
      wKM.topKeys.length = min wKM.sampledCount TOP_KEYS_COUNT.toNat :=
  topn_sorted_and_length.1 wKRedis (some 10) wKM (by decide)

-- ── C5: empty keyspace short-circuits the sampling ──

/-- C5.  When the keyspace overview reports zero total keys the check
returns immediately with an `ok` section and a single informational
finding, and the result does not depend on the scan or pipeline behaviour
of the adapter at all (no scan or per-key fetch is consulted): any two
adapters agreeing on the keyspace probe produce the identical section. -/
theorem empty_keyspace_early_return (redis : Redis) (sc : Option Int) (raw : String)
    (hks : redis.infoKeyspace = .ok raw)
    (hzero : (readKeyspaceTotals (parseInfoSection raw)).totalKeys = some 0) :
    runKeyPatternCheck redis sc =
      { status := "ok", title := kpTitle
        metrics := .keyPatternsEmpty 0 (readKeyspaceTotals (parseInfoSection raw)).databases
        findings := ["No keys found in this Redis instance"] } ∧
    ∀ redis2 : Redis, redis2.infoKeyspace = .ok raw →
      runKeyPatternCheck redis2 sc = runKeyPatternCheck redis sc := by
  have main : ∀ r : Redis, r.infoKeyspace = .ok raw →
      runKeyPatternCheck r sc =
        { status := "ok", title := kpTitle
          metrics := .keyPatternsEmpty 0 (readKeyspaceTotals (parseInfoSection raw)).databases
          findings := ["No keys found in this Redis instance"] } := by
    intro r hr
    unfold runKeyPatternCheck kpBody
    rw [hr]
    simp [hzero]
  refine ⟨main redis hks, fun redis2 h2 => ?_⟩
  rw [main redis2 h2, main redis hks]

/-- Witness for C5 at the empty-store adapter. -/
theorem empty_keyspace_early_return_witness :
    runKeyPatternCheck wEmptyRedis (some 5) =
      { status := "ok", title := kpTitle
        metrics := .keyPatternsEmpty 0
          (readKeyspaceTotals (parseInfoSection "db0:keys=0,expires=0")).databases
        findings := ["No keys found in this Redis instance"] } :=
  (empty_keyspace_early_return wEmptyRedis (some 5) "db0:keys=0,expires=0"
    (by decide) (by decide)).1

-- ── C6: the no-TTL warning threshold ──

/-- C6.  Over a non-empty sample the no-TTL percentage is exactly
`(noTTL / sampleSize) * 100`; at or above the 50 % threshold the section
is `warning` with the single finding quoting the formatted percentage,
below it the section stays `ok` with no findings; and a 1,000-key sample
with 600 keys lacking a TTL formats as "60.0%", which meets the
threshold. -/
theorem no_ttl_warning_threshold :
    (∀ (redis : Redis) (sc : Option Int) (sec : CheckSection) (m : KPMetrics),
      runKeyPatternCheck redis sc = sec →
      sec.metrics = .keyPatternsM m →
      0 < m.sampledCount →
      m.noTimeToLivePercent =
        jmul (jdiv (jnum m.timeToLiveDistribution.none) (jnum (m.sampledCount : Int))) (jnum 100) ∧
      (jgeI m.noTimeToLivePercent NO_TTL_WARNING_PERCENT = true →
        sec.status = "warning" ∧
        sec.findings = [formatPercent m.noTimeToLivePercent ++
          " of sampled keys have no TTL - potential memory growth risk"]) ∧
      (jgeI m.noTimeToLivePercent NO_TTL_WARNING_PERCENT = false →
        sec.status = "ok" ∧ sec.findings = [])) ∧
    formatPercent (jmul (jdiv (jnum 600) (jnum 1000)) (jnum 100)) = "60.0%" ∧
    jgeI (jmul (jdiv (jnum 600) (jnum 1000)) (jnum 100)) NO_TTL_WARNING_PERCENT = true := by
  refine ⟨?_, by decide, by decide⟩
  intro redis sc sec m hrun hm hpos
  obtain ⟨sampled, agg, hagg, hcount, httl, -, hperc, hstat, hfind⟩ :=
    kp_success_inv redis sc sec m hrun hm
  have hlen : 0 < sampled.length := by rw [← hcount]; exact hpos
  have hperc2 : m.noTimeToLivePercent =
      jmul (jdiv (jnum m.timeToLiveDistribution.none) (jnum (m.sampledCount : Int))) (jnum 100) := by
    rw [hperc, if_pos hlen, httl, hcount]
  refine ⟨hperc2, ?_, ?_⟩
  · intro hge
    rw [hstat, hfind, if_pos hge, if_pos hge]
    exact ⟨rfl, rfl⟩
  · intro hge
    rw [hstat, hfind, if_neg (by simp [hge]), if_neg (by simp [hge])]
    exact ⟨rfl, rfl⟩

/-- Witness for C6 at the concrete two-key adapter (100 % without TTL). -/
theorem no_ttl_warning_threshold_witness :
    wKM.noTimeToLivePercent =
      jmul (jdiv (jnum wKM.timeToLiveDistribution.none) (jnum (wKM.sampledCount : Int)))
        (jnum 100) ∧
    (jgeI wKM.noTimeToLivePercent NO_TTL_WARNING_PERCENT = true →
      wKSec.status = "warning" ∧
      wKSec.findings = [formatPercent wKM.noTimeToLivePercent ++
        " of sampled keys have no TTL - potential memory growth risk"]) ∧
    (jgeI wKM.noTimeToLivePercent NO_TTL_WARNING_PERCENT = false →
      wKSec.status = "ok" ∧ wKSec.findings = []) :=
  (no_ttl_warning_threshold.1 wKRedis (some 10) wKSec wKM (by decide) (by decide) (by decide))

-- ── C7: antisymmetry of the delta formatting ──

theorem sub_num_neg (a b : JSQ) : (b.sub a).num = -((a.sub b).num) := by
  simp only [JSQ.sub]; ring

theorem sub_beq_zero_iff (a b : JSQ) :
    ((a.sub b).beq (JSQ.ofInt 0)) = ((a.sub b).num == 0) := by
  simp [JSQ.beq, JSQ.ofInt]

/-- C7.  Swapping `current` and `previous` in `formatDelta` keeps
`unchanged` rows unchanged; for a non-zero delta it flips the direction
arrow, negates the `isGood` colouring flag, and renders the swapped cell
with the opposite arrow and colour around the same formatted absolute
delta. -/
theorem delta_antisymmetry (current previous : JSQ) (hib : Bool) (fmt : JSQ → String) :
    ((current.sub previous).beq (JSQ.ofInt 0) = true →
      formatDelta current previous hib fmt = dim "→ unchanged" ∧
      formatDelta previous current hib fmt = dim "→ unchanged") ∧
    ((current.sub previous).beq (JSQ.ofInt 0) = false →
      deltaDirection (previous.sub current) =
        (if deltaDirection (current.sub previous) = "↑" then "↓" else "↑") ∧
      deltaIsGood (previous.sub current) hib = !(deltaIsGood (current.sub previous) hib) ∧
      formatDelta previous current hib fmt =
        (if deltaIsGood (current.sub previous) hib then red else green)
          ((if deltaDirection (current.sub previous) = "↑" then "↓" else "↑") ++ " " ++
            fmt ((current.sub previous).abs))) := by
  have hnum : (previous.sub current).num = -((current.sub previous).num) :=
    sub_num_neg current previous
  have habs : (previous.sub current).abs = (current.sub previous).abs := by
    simp only [JSQ.abs, JSQ.sub, JSQ.mk.injEq]
    constructor
    · omega
    · ring
  constructor
  · intro hez
    rw [sub_beq_zero_iff, beq_iff_eq] at hez
    have hez2 : (previous.sub current).num = 0 := by rw [hnum, hez]; ring
    constructor <;> simp [formatDelta, JSQ.beq, JSQ.ofInt, hez, hez2]
  · intro hnz
    rw [sub_beq_zero_iff, beq_eq_false_iff_ne, ne_eq] at hnz
    have hnz2 : (previous.sub current).num ≠ 0 := by
      rw [hnum]; omega
    have hblt : ∀ q : JSQ, ((JSQ.ofInt 0).blt q) = decide (0 < q.num) := by
      intro q; simp [JSQ.blt, JSQ.ofInt]
    have hblt2 : ∀ q : JSQ, (q.blt (JSQ.ofInt 0)) = decide (q.num < 0) := by
      intro q; simp [JSQ.blt, JSQ.ofInt]
    by_cases hpos : 0 < (current.sub previous).num
    · have hneg : ¬(0 < (previous.sub current).num) := by rw [hnum]; omega
      have hltz : (previous.sub current).num < 0 := by rw [hnum]; omega
      refine ⟨?_, ?_, ?_⟩
      · simp [deltaDirection, hblt, hpos, hneg]
      · cases hib <;> simp [deltaIsGood, hblt, hblt2, hpos, hneg, hltz] <;> omega
      · have hnlt : ¬((current.sub previous).num < 0) := by omega
        cases hib <;>
          simp [formatDelta, JSQ.beq, JSQ.ofInt, JSQ.blt, hnz2, habs, deltaIsGood,
            deltaDirection, hpos, hneg, hltz, hnlt]
    · have hneg : (current.sub previous).num < 0 := by omega
      have hpos2 : 0 < (previous.sub current).num := by rw [hnum]; omega
      refine ⟨?_, ?_, ?_⟩
      · simp [deltaDirection, hblt, hpos, hpos2]
      · cases hib <;> simp [deltaIsGood, hblt, hblt2, hpos, hpos2, hneg] <;> omega
      · have hnlt2 : ¬((previous.sub current).num < 0) := by omega
        cases hib <;>
          simp [formatDelta, JSQ.beq, JSQ.ofInt, JSQ.blt, hnz2, habs, deltaIsGood,
            deltaDirection, hpos, hpos2, hneg, hnlt2]

/-- Witness for C7: a concrete increase (3 vs 1) on a lower-is-better
metric renders as a red up arrow and, swapped, as a green down arrow. -/
theorem delta_antisymmetry_witness :
    deltaDirection ((JSQ.ofInt 1).sub (JSQ.ofInt 3)) =
      (if deltaDirection ((JSQ.ofInt 3).sub (JSQ.ofInt 1)) = "↑" then "↓" else "↑") ∧
    deltaIsGood ((JSQ.ofInt 1).sub (JSQ.ofInt 3)) false =
      !(deltaIsGood ((JSQ.ofInt 3).sub (JSQ.ofInt 1)) false) ∧
    formatDelta (JSQ.ofInt 1) (JSQ.ofInt 3) false (JSQ.toFixed 0) =
      (if deltaIsGood ((JSQ.ofInt 3).sub (JSQ.ofInt 1)) false then red else green)
        ((if deltaDirection ((JSQ.ofInt 3).sub (JSQ.ofInt 1)) = "↑" then "↓" else "↑") ++ " " ++
          JSQ.toFixed 0 (((JSQ.ofInt 3).sub (JSQ.ofInt 1)).abs)) :=
  (delta_antisymmetry (JSQ.ofInt 3) (JSQ.ofInt 1) false (JSQ.toFixed 0)).2 (by decide)

-- ── C8: lenient defaults on missing pipeline entries ──

/-- Counterexample to C8 as stated: a key whose per-key fetch returns no
entries is NOT dropped from the distributions — it is counted under type
`unknown`, encoding `unknown`, the over-7-days TTL bucket, and its
namespace group, while also being counted in the raw sample size. -/
theorem lenient_defaults_counterexample :
    kpTypeDist (runKeyPatternCheck c8Redis (some 10)) = some [("unknown", ⟨1, 0⟩)] ∧
    kpEncDist (runKeyPatternCheck c8Redis (some 10)) = some [("unknown", 1)] ∧
    kpTTLDist (runKeyPatternCheck c8Redis (some 10)) = some ⟨0, 0, 0, 0, 1⟩ ∧
    kpGroups (runKeyPatternCheck c8Redis (some 10)) = some [("user:*", ⟨1, 0⟩)] ∧
    kpSampled (runKeyPatternCheck c8Redis (some 10)) = some 1 := by
  refine ⟨?_, ?_, ?_, ?_, ?_⟩ <;> decide

/-- C8 (amended).  A key whose pipeline entries are missing does not abort
the batch and is still counted in the raw sample size, and it is not
placed in the no-expiry bucket; but instead of being dropped from the
distributions it is counted in all of them with lenient defaults: type
`unknown`, size `0`, encoding `unknown`, and the missing TTL
(`undefined`) falls through the bucket chain into the over-7-days
bucket. -/
theorem lenient_defaults_on_missing_entry :
    (∀ (agg : KPAgg) (results : List JSVal) (i : Nat) (key : String),
      jsIndex results (i * 4) = .undefined →
      jsIndex results (i * 4 + 1) = .undefined →
      jsIndex results (i * 4 + 2) = .undefined →
      jsIndex results (i * 4 + 3) = .undefined →
      processKeyAt agg results i key =
        { typeDistribution := jsObjUpd agg.typeDistribution "unknown" ⟨0, 0⟩
            (fun t => ⟨t.count + 1, t.totalBytes + 0⟩)
          encodingDistribution := jsObjUpd agg.encodingDistribution "unknown" 0 (· + 1)
          timeToLiveDistribution :=
            { agg.timeToLiveDistribution with
              over7Days := agg.timeToLiveDistribution.over7Days + 1 }
          keySizes := agg.keySizes ++ [⟨key, "unknown", 0⟩]
          nsGroups := jsObjUpd agg.nsGroups
            (match jsIndexOfChar key ':' with
             | some colonIndex => if colonIndex > 0 then strTake key colonIndex ++ ":*" else key
             | none => key)
            ⟨0, 0⟩ (fun g => ⟨g.count + 1, g.totalBytes + 0⟩) } ∧
      (processKeyAt agg results i key).timeToLiveDistribution.none =
        agg.timeToLiveDistribution.none) ∧
    (∀ (agg : KPAgg) (results : List JSVal) (i : Nat) (key : String),
      (processKeyAt agg results i key).keySizes.length = agg.keySizes.length + 1) := by
  constructor
  · intro agg results i key h0 h1 h2 h3
    constructor
    · simp [processKeyAt, h0, h1, h2, h3, jsValOrStr, jsValOrInt, bumpTTL, jsValEqInt,
        jsValLtInt]
    · simp [processKeyAt, h2, bumpTTL, jsValEqInt, jsValLtInt]
  · exact processKeyAt_keySizes

/-- Witness for the amended C8: a key at index 0 with an empty reply
array. -/
theorem lenient_defaults_on_missing_entry_witness :
    processKeyAt initAgg [] 0 "user:1" =
      { typeDistribution := jsObjUpd initAgg.typeDistribution "unknown" ⟨0, 0⟩
          (fun t => ⟨t.count + 1, t.totalBytes + 0⟩)
        encodingDistribution := jsObjUpd initAgg.encodingDistribution "unknown" 0 (· + 1)
        timeToLiveDistribution :=
          { initAgg.timeToLiveDistribution with
            over7Days := initAgg.timeToLiveDistribution.over7Days + 1 }
        keySizes := initAgg.keySizes ++ [⟨"user:1", "unknown", 0⟩]
        nsGroups := jsObjUpd initAgg.nsGroups
          (match jsIndexOfChar "user:1" ':' with
           | some colonIndex =>
             if colonIndex > 0 then strTake "user:1" colonIndex ++ ":*" else "user:1"
           | none => "user:1")
          ⟨0, 0⟩ (fun g => ⟨g.count + 1, g.totalBytes + 0⟩) } ∧
    (processKeyAt initAgg [] 0 "user:1").timeToLiveDistribution.none =
      initAgg.timeToLiveDistribution.none :=
  (lenient_defaults_on_missing_entry.1 initAgg [] 0 "user:1"
    (by decide) (by decide) (by decide) (by decide))

-- ── C9: recommendation dedup ──

theorem ruleStep_sync (finding : String) (st : List Recommendation × List String)
    (rule : RecommendationRule) (h : st.1.map (·.title) = st.2) :
    (ruleStep finding st rule).1.map (·.title) = (ruleStep finding st rule).2 := by
  unfold ruleStep
  split
  · simp [h]
  · exact h

theorem contains_false_not_mem {l : List String} {a : String}
    (h : l.contains a = false) : a ∉ l := by
  intro hmem
  rw [List.contains_eq_any_beq] at h
  have hany : l.any (· == a) = true := List.any_eq_true.mpr ⟨a, hmem, by simp⟩
  simp [hany] at h
  exact h a hmem rfl

theorem ruleStep_nodup (finding : String) (st : List Recommendation × List String)
    (rule : RecommendationRule) (h : st.2.Nodup) : (ruleStep finding st rule).2.Nodup := by
  unfold ruleStep
  split
  · rename_i hc
    simp only [Bool.and_eq_true, Bool.not_eq_true'] at hc
    simp [List.nodup_append, h, contains_false_not_mem hc.2]
  · exact h

theorem ruleStep_seen_mono (finding : String) (st : List Recommendation × List String)
    (rule : RecommendationRule) : st.2 ⊆ (ruleStep finding st rule).2 := by
  unfold ruleStep
  split
  · simp [List.subset_append_left]
  · exact fun x hx => hx

theorem rulesFold_seen_mono (finding : String) (rules : List RecommendationRule) :
    ∀ st : List Recommendation × List String, st.2 ⊆ (rules.foldl (ruleStep finding) st).2 := by
  induction rules with
  | nil => intro st; simp
  | cons r rs ih =>
    intro st
    exact (ruleStep_seen_mono finding st r).trans (ih (ruleStep finding st r))

theorem rulesFold_sync (finding : String) (rules : List RecommendationRule) :
    ∀ st : List Recommendation × List String, st.1.map (·.title) = st.2 →
      (rules.foldl (ruleStep finding) st).1.map (·.title) =
        (rules.foldl (ruleStep finding) st).2 := by
  induction rules with
  | nil => intro st h; simpa using h
  | cons r rs ih =>
    intro st h
    exact ih (ruleStep finding st r) (ruleStep_sync finding st r h)

theorem rulesFold_nodup (finding : String) (rules : List RecommendationRule) :
    ∀ st : List Recommendation × List String, st.2.Nodup →
      (rules.foldl (ruleStep finding) st).2.Nodup := by
  induction rules with
  | nil => intro st h; simpa using h
  | cons r rs ih =>
    intro st h
    exact ih (ruleStep finding st r) (ruleStep_nodup finding st r h)

theorem ruleStep_saturates (finding : String) (st : List Recommendation × List String)
    (rule : RecommendationRule) (hmatch : patternTest rule.frags finding = true) :
    rule.title ∈ (ruleStep finding st rule).2 := by
  unfold ruleStep
  split
  · simp
  · rename_i hc
    simp only [hmatch, Bool.true_and, Bool.not_eq_true', Bool.not_eq_false] at hc
    rw [List.contains_eq_any_beq, List.any_eq_true] at hc
    obtain ⟨a, hmem, hbeq⟩ := hc
    rw [beq_iff_eq] at hbeq
    exact hbeq ▸ hmem

theorem rulesFold_saturates (finding : String) (rules : List RecommendationRule) :
    ∀ (st : List Recommendation × List String) (rule : RecommendationRule),
      rule ∈ rules → patternTest rule.frags finding = true →
      rule.title ∈ (rules.foldl (ruleStep finding) st).2 := by
  induction rules with
  | nil => intro st rule h; cases h
  | cons r rs ih =>
    intro st rule hmem hmatch
    rcases List.mem_cons.mp hmem with heq | hmem2
    · subst heq
      simp only [List.foldl_cons]
      exact rulesFold_seen_mono finding rs (ruleStep finding st rule)
        (ruleStep_saturates finding st rule hmatch)
    · exact ih (ruleStep finding st r) rule hmem2 hmatch

theorem ruleStep_id (finding : String) (st : List Recommendation × List String)
    (rule : RecommendationRule) (h : patternTest rule.frags finding = true → rule.title ∈ st.2) :
    ruleStep finding st rule = st := by
  unfold ruleStep
  split
  · rename_i hc
    simp only [Bool.and_eq_true, Bool.not_eq_true'] at hc
    exact absurd (h hc.1) (contains_false_not_mem hc.2)
  · rfl

theorem rulesFold_id (finding : String) (rules : List RecommendationRule) :
    ∀ st : List Recommendation × List String,
      (∀ rule ∈ rules, patternTest rule.frags finding = true → rule.title ∈ st.2) →
      rules.foldl (ruleStep finding) st = st := by
  induction rules with
  | nil => intro st _; rfl
  | cons r rs ih =>
    intro st h
    have hr : ruleStep finding st r = st :=
      ruleStep_id finding st r (h r (List.mem_cons_self r rs))
    simp only [List.foldl_cons, hr]
    exact ih st (fun rule hm => h rule (List.mem_cons_of_mem r hm))

theorem applyRules_seen_mono (st : List Recommendation × List String) (finding : String) :
    st.2 ⊆ (applyRules st finding).2 :=
  rulesFold_seen_mono finding RECOMMENDATION_MAP st

theorem findingsFold_seen_mono (l : List String) :
    ∀ st : List Recommendation × List String, st.2 ⊆ (l.foldl applyRules st).2 := by
  induction l with
  | nil => intro st; simp
  | cons f fs ih =>
    intro st
    exact (applyRules_seen_mono st f).trans (ih (applyRules st f))

theorem findingsFold_saturates (l : List String) (f : String) :
    ∀ st : List Recommendation × List String, f ∈ l →
      ∀ rule ∈ RECOMMENDATION_MAP, patternTest rule.frags f = true →
        rule.title ∈ (l.foldl applyRules st).2 := by
  induction l with
  | nil => intro st h; cases h
  | cons g gs ih =>
    intro st hmem rule hrule hmatch
    rcases List.mem_cons.mp hmem with heq | hmem2
    · subst heq
      simp only [List.foldl_cons]
      exact findingsFold_seen_mono gs (applyRules st f)
        (rulesFold_saturates f RECOMMENDATION_MAP st rule hrule hmatch)
    · exact ih (applyRules st g) hmem2 rule hrule hmatch

/-- C9.  The engine emits at most one recommendation per distinct rule
title (the emitted titles are without duplicates for every section list),
and re-feeding a finding that already occurred adds nothing: appending a
section that repeats an existing finding leaves the recommendation list
unchanged. -/
theorem recommendation_dedup :
    (∀ sections : List CheckSection,
      ((generateRecommendations sections).map (·.title)).Nodup) ∧
    (∀ (sections : List CheckSection) (st t : String) (mt : Metrics) (f : String),
      f ∈ sections.flatMap (fun sec => sec.findings) →
      generateRecommendations (sections ++ [⟨st, t, mt, [f]⟩]) =
        generateRecommendations sections) := by
  constructor
  · intro sections
    unfold generateRecommendations
    generalize sections.flatMap (fun sec => sec.findings) = l
    have main : ∀ st : List Recommendation × List String,
        st.1.map (·.title) = st.2 → st.2.Nodup →
        (l.foldl applyRules st).1.map (·.title) = (l.foldl applyRules st).2 ∧
          (l.foldl applyRules st).2.Nodup := by
      induction l with
      | nil => intro st h1 h2; exact ⟨h1, h2⟩
      | cons f fs ih =>
        intro st h1 h2
        exact ih (applyRules st f) (rulesFold_sync f RECOMMENDATION_MAP st h1)
          (rulesFold_nodup f RECOMMENDATION_MAP st h2)
    have h := main ([], []) rfl List.nodup_nil
    rw [h.1]
    exact h.2
  · intro sections st t mt f hmem
    unfold generateRecommendations
    have hflat : (sections ++ [(⟨st, t, mt, [f]⟩ : CheckSection)]).flatMap
        (fun sec => sec.findings) = sections.flatMap (fun sec => sec.findings) ++ [f] := by
      simp
    rw [hflat, List.foldl_append]
    have hsat : ∀ rule ∈ RECOMMENDATION_MAP, patternTest rule.frags f = true →
        rule.title ∈ ((sections.flatMap (fun sec => sec.findings)).foldl
          applyRules ([], [])).2 :=
      findingsFold_saturates _ f ([], []) hmem
    simp only [List.foldl_cons, List.foldl_nil]
    have happ : applyRules
        ((sections.flatMap (fun sec => sec.findings)).foldl applyRules ([], [])) f =
        (sections.flatMap (fun sec => sec.findings)).foldl applyRules ([], []) :=
      rulesFold_id f RECOMMENDATION_MAP _ hsat
    rw [happ]

/-- Witness for C9: duplicating a concrete matching finding yields the
same single recommendation list. -/
theorem recommendation_dedup_witness :
    generateRecommendations
        ([⟨"warning", "T", .empty, ["15 connections rejected - maxclients may be too low"]⟩] ++
          [⟨"warning", "T", .empty, ["15 connections rejected - maxclients may be too low"]⟩]) =
      generateRecommendations
        [⟨"warning", "T", .empty, ["15 connections rejected - maxclients may be too low"]⟩] :=
  recommendation_dedup.2
    [⟨"warning", "T", .empty, ["15 connections rejected - maxclients may be too low"]⟩]
    "warning" "T" .empty "15 connections rejected - maxclients may be too low" (by decide)

-- ── C10: hit-rate thresholds gated on keyspace traffic ──

/-- C10.  The hit-rate thresholds only fire when `hits + misses > 100`:
(1) at or below 100 keyspace operations the section status and findings do
not depend on the hit rate at all; (2) in particular with no rejected
connections and a small slow log the status is `ok` however low the rate;
(3) with zero keyspace operations the reported hit rate is `0` without
dividing; (4) above 100 operations the computed rate is compared against
the 70 % critical and 90 % warning thresholds, and those outcomes survive
the later rules; (5) `runPerformanceCheck` feeds `perfEval` with the
parsed INFO numbers. -/
theorem hit_rate_gating :
    (∀ (ops tc h m h2 m2 rej ni no up : JNum) (ver : String)
        (slow : Except String (Option (List (List JSVal)) × JSVal)),
      jgtI (jadd h m) 100 = false → jgtI (jadd h2 m2) 100 = false →
      (perfEval ops tc h m rej ni no up ver slow).status =
        (perfEval ops tc h2 m2 rej ni no up ver slow).status ∧
      (perfEval ops tc h m rej ni no up ver slow).findings =
        (perfEval ops tc h2 m2 rej ni no up ver slow).findings) ∧
    (∀ (ops tc h m rej ni no up : JNum) (ver : String)
        (sl : Option (List (List JSVal))) (sll : JSVal),
      jgtI (jadd h m) 100 = false → jgtI rej 0 = false →
      jgtI (jsValOrNum sll 0) 100 = false →
      (perfEval ops tc h m rej ni no up ver (.ok (sl, sll))).status = "ok" ∧
      (perfEval ops tc h m rej ni no up ver (.ok (sl, sll))).findings = []) ∧
    (∀ (ops tc h m rej ni no up : JNum) (ver : String)
        (slow : Except String (Option (List (List JSVal)) × JSVal)),
      jgtI (jadd h m) 0 = false →
      sectionHitRate (perfEval ops tc h m rej ni no up ver slow) = some (jnum 0)) ∧
    (∀ (ops tc h m rej ni no up : JNum) (ver : String)
        (slow : Except String (Option (List (List JSVal)) × JSVal)),
      jgtI (jadd h m) 100 = true →
      (jltI (if jgtI (jadd h m) 0 then jmul (jdiv h (jadd h m)) (jnum 100) else jnum 0)
          HIT_RATE_CRITICAL_PERCENT = true →
        (perfEval ops tc h m rej ni no up ver slow).status = "critical") ∧
      (jltI (if jgtI (jadd h m) 0 then jmul (jdiv h (jadd h m)) (jnum 100) else jnum 0)
          HIT_RATE_CRITICAL_PERCENT = false →
       jltI (if jgtI (jadd h m) 0 then jmul (jdiv h (jadd h m)) (jnum 100) else jnum 0)
          HIT_RATE_WARNING_PERCENT = true →
        (perfEval ops tc h m rej ni no up ver slow).status = "warning")) ∧
    (∀ (redis : Redis) (statsRaw serverRaw : String),
      redis.infoStats = .ok statsRaw → redis.infoServerPerf = .ok serverRaw →
      runPerformanceCheck redis =
        (let stats := parseInfoSection statsRaw
         let server := parseInfoSection serverRaw
         perfEval (infoNum stats "instantaneous_ops_per_sec")
           (infoNum stats "total_commands_processed") (infoNum stats "keyspace_hits")
           (infoNum stats "keyspace_misses") (infoNum stats "rejected_connections")
           (infoNum stats "total_net_input_bytes") (infoNum stats "total_net_output_bytes")
           (infoNum server "uptime_in_seconds")
           (jsOrStr (jsObjGet server "redis_version") "unknown") redis.slowlog)) := by
  refine ⟨?_, ?_, ?_, ?_, ?_⟩
  · intro ops tc h m h2 m2 rej ni no up ver slow h100 h100b
    unfold perfEval
    simp [h100, h100b]
  · intro ops tc h m rej ni no up ver sl sll h100 hrej hlen
    unfold perfEval
    simp [h100, hrej, hlen]
  · intro ops tc h m rej ni no up ver slow h0
    unfold perfEval sectionHitRate
    simp [h0]
  · intro ops tc h m rej ni no up ver slow h100
    constructor
    · intro hcrit
      unfold perfEval
      simp only [h100, if_true, hcrit]
      cases slow with
      | error e =>
        by_cases hr : jgtI rej 0 = true <;> simp [hr]
      | ok p =>
        rcases p with ⟨sl, sll⟩
        by_cases hr : jgtI rej 0 = true <;>
          by_cases hl : jgtI (jsValOrNum sll 0) 100 = true <;> simp [hr, hl]
    · intro hncrit hwarn
      unfold perfEval
      simp only [h100, if_true, hncrit, hwarn, Bool.false_eq_true, if_false]
      cases slow with
      | error e =>
        by_cases hr : jgtI rej 0 = true <;> simp [hr]
      | ok p =>
        rcases p with ⟨sl, sll⟩
        by_cases hr : jgtI rej 0 = true <;>
          by_cases hl : jgtI (jsValOrNum sll 0) 100 = true <;> simp [hr, hl]
  · intro redis statsRaw serverRaw hs hv
    unfold runPerformanceCheck promiseAll2
    rw [hs, hv]

/-- Witness for C10: 50 hits, 50 misses (100 operations, not more) with a
hit rate of 50 % still yields an `ok` performance section. -/
theorem hit_rate_gating_witness :
    (perfEval (jnum 5) (jnum 1000) (jnum 50) (jnum 50) (jnum 0) (jnum 0) (jnum 0) (jnum 3600)
        "7.0.0" (.ok (none, .num 2))).status = "ok" ∧
    (perfEval (jnum 5) (jnum 1000) (jnum 50) (jnum 50) (jnum 0) (jnum 0) (jnum 0) (jnum 3600)
        "7.0.0" (.ok (none, .num 2))).findings = [] :=
  hit_rate_gating.2.1 (jnum 5) (jnum 1000) (jnum 50) (jnum 50) (jnum 0) (jnum 0) (jnum 0)
    (jnum 3600) "7.0.0" none (.num 2) (by decide) (by decide) (by decide)

-- ── C1: exit signal from severity counts ──

theorem countSeverities_go (l : List CheckSection) :
    ∀ w c : Nat,
      l.foldl
        (fun wc result =>
          (if result.status = "warning" then wc.1 + 1 else wc.1,
           if result.status = "critical" then wc.2 + 1 else wc.2))
        (w, c) =
      (w + (l.filter (fun s => s.status == "warning")).length,
       c + (l.filter (fun s => s.status == "critical")).length) := by
  induction l with
  | nil => intro w c; simp
  | cons x xs ih =>
    intro w c
    simp only [List.foldl_cons, List.filter_cons]
    by_cases hw : x.status = "warning" <;> by_cases hc : x.status = "critical" <;>
      simp [hw, hc, ih] <;> omega

theorem countSeverities_eq (l : List CheckSection) :
    countSeverities l =
      ((l.filter (fun s => s.status == "warning")).length,
       (l.filter (fun s => s.status == "critical")).length) := by
  unfold countSeverities
  rw [countSeverities_go]
  simp

theorem severity_filters_disjoint (l : List CheckSection) :
    (l.filter (fun s => s.status == "warning")).length +
      (l.filter (fun s => s.status == "critical")).length ≤ l.length := by
  induction l with
  | nil => simp
  | cons x xs ih =>
    simp only [List.filter_cons, List.length_cons]
    by_cases hw : x.status = "warning" <;> by_cases hc : x.status = "critical" <;>
      simp [hw, hc] <;> omega

theorem exitCode_cases (a : Analysis) :
    (exitCode a = 2 ↔ 0 < a.criticals) ∧
    (exitCode a = 1 ↔ a.criticals = 0 ∧ 0 < a.warnings) ∧
    (exitCode a = 0 ↔ a.criticals = 0 ∧ a.warnings = 0) := by
  unfold exitCode
  rcases Nat.eq_zero_or_pos a.criticals with hc | hc <;>
    rcases Nat.eq_zero_or_pos a.warnings with hw | hw <;>
      simp [hc, hw] <;> omega

theorem filter_pos_iff (L : List CheckSection) (status : String) :
    0 < (L.filter (fun s => s.status == status)).length ↔
      ∃ s ∈ L, s.status = status := by
  rw [List.length_pos, ne_eq, List.filter_eq_nil_iff]
  push_neg
  simp

theorem countSeverities_trichotomy (L : List CheckSection) (a : Analysis)
    (hw : a.warnings = (countSeverities L).1) (hc : a.criticals = (countSeverities L).2) :
    a.warnings = (L.filter (fun s => s.status == "warning")).length ∧
    a.criticals = (L.filter (fun s => s.status == "critical")).length ∧
    a.warnings + a.criticals ≤ L.length ∧
    (exitCode a = 2 ↔ ∃ s ∈ L, s.status = "critical") ∧
    (exitCode a = 1 ↔
      (¬ ∃ s ∈ L, s.status = "critical") ∧ ∃ s ∈ L, s.status = "warning") ∧
    (exitCode a = 0 ↔
      (¬ ∃ s ∈ L, s.status = "critical") ∧ ¬ ∃ s ∈ L, s.status = "warning") := by
  have hW : a.warnings = (L.filter (fun s => s.status == "warning")).length := by
    rw [hw, countSeverities_eq]
  have hC : a.criticals = (L.filter (fun s => s.status == "critical")).length := by
    rw [hc, countSeverities_eq]
  refine ⟨hW, hC, by rw [hW, hC]; exact severity_filters_disjoint L, ?_, ?_, ?_⟩
  · rw [(exitCode_cases a).1, hC]
    exact filter_pos_iff L "critical"
  · rw [(exitCode_cases a).2.1, hC, hW,
      ← filter_pos_iff L "critical", ← filter_pos_iff L "warning"]
    omega
  · rw [(exitCode_cases a).2.2, hC, hW,
      ← filter_pos_iff L "critical", ← filter_pos_iff L "warning"]
    omega

/-- C1.  The severity counters derive solely from section status, count
each section at most once (they are exactly the lengths of the disjoint
warning/critical status filters, whose sum is bounded by the section
count), and the single-run exit signal is 2 exactly when some section is
critical, 1 exactly when none is critical and some is warning, and 0
exactly when neither occurs. -/
theorem exit_signal_trichotomy :
    (∀ l : List CheckSection,
      countSeverities l =
        ((l.filter (fun s => s.status == "warning")).length,
         (l.filter (fun s => s.status == "critical")).length)) ∧
    (∀ (redis : Redis) (opts : AnalysisOptions) (a : Analysis),
      runAnalysis redis opts = .ok a →
      a.warnings = ((resultsList a.results).filter (fun s => s.status == "warning")).length ∧
      a.criticals = ((resultsList a.results).filter (fun s => s.status == "critical")).length ∧
      a.warnings + a.criticals ≤ (resultsList a.results).length ∧
      (exitCode a = 2 ↔ ∃ s ∈ resultsList a.results, s.status = "critical") ∧
      (exitCode a = 1 ↔
        (¬ ∃ s ∈ resultsList a.results, s.status = "critical") ∧
        ∃ s ∈ resultsList a.results, s.status = "warning") ∧
      (exitCode a = 0 ↔
        (¬ ∃ s ∈ resultsList a.results, s.status = "critical") ∧
        ¬ ∃ s ∈ resultsList a.results, s.status = "warning")) := by
  refine ⟨countSeverities_eq, ?_⟩
  intro redis opts a hrun
  unfold runAnalysis at hrun
  cases hsv : redis.infoServer with
  | error e => rw [hsv] at hrun; cases hrun
  | ok serverRaw =>
    rw [hsv] at hrun
    simp only [Except.ok.injEq] at hrun
    subst hrun
    exact countSeverities_trichotomy _ _ rfl rfl

/-- Witness for C1: on the degraded adapter the four critical sections
force exit signal 2, with the counts exactly the status filters. -/
theorem exit_signal_trichotomy_witness :
    wAnalysis.warnings =
      ((resultsList wAnalysis.results).filter (fun s => s.status == "warning")).length ∧
    wAnalysis.criticals =
      ((resultsList wAnalysis.results).filter (fun s => s.status == "critical")).length ∧
    wAnalysis.warnings + wAnalysis.criticals ≤ (resultsList wAnalysis.results).length ∧
    (exitCode wAnalysis = 2 ↔ ∃ s ∈ resultsList wAnalysis.results, s.status = "critical") ∧
    (exitCode wAnalysis = 1 ↔
      (¬ ∃ s ∈ resultsList wAnalysis.results, s.status = "critical") ∧
      ∃ s ∈ resultsList wAnalysis.results, s.status = "warning") ∧
    (exitCode wAnalysis = 0 ↔
      (¬ ∃ s ∈ resultsList wAnalysis.results, s.status = "critical") ∧
      ¬ ∃ s ∈ resultsList wAnalysis.results, s.status = "warning") :=
  exit_signal_trichotomy.2 wKRedis ⟨true, 1000⟩ wAnalysis (by decide)

-- ── C2: evaluator failures degrade to critical sections, never fatal ──

/-- C2.  Each evaluator converts a thrown command into a `critical`
section with exactly one finding describing the failure, covering every
command that can throw past the evaluator's own inner handlers: the
memory INFO probe; either of the performance check's two parallel INFO
round trips (its own `INFO server` call is independent of the identity
probe); the clients INFO probe; either of the replication check's two
parallel INFO round trips (in particular a persistence-only failure);
and, for the key-sampling evaluator, any failure of its try-block —
keyspace probe, any scan page, or any pipelined fetch — surfaces as a
`kpBody` error and degrades the same way.  Whenever the identity probe
succeeds `runAnalysis` returns a full report whose merge step receives
exactly those converted sections — an evaluator failure is never
propagated as a fatal error. -/
theorem evaluator_failure_isolation :
    (∀ (redis : Redis) (e : String), redis.infoMemory = .error e →
      runMemoryCheck redis =
        { status := "critical", title := memTitle, metrics := .empty
          findings := ["Memory check failed: " ++ e] }) ∧
    (∀ (redis : Redis) (e : String), redis.infoStats = .error e →
      runPerformanceCheck redis =
        { status := "critical", title := perfTitle, metrics := .empty
          findings := ["Performance check failed: " ++ e] }) ∧
    (∀ (redis : Redis) (statsRaw : String) (e : String),
      redis.infoStats = .ok statsRaw → redis.infoServerPerf = .error e →
      runPerformanceCheck redis =
        { status := "critical", title := perfTitle, metrics := .empty
          findings := ["Performance check failed: " ++ e] }) ∧
    (∀ (redis : Redis) (e : String), redis.infoClients = .error e →
      runConnectionCheck redis =
        { status := "critical", title := connTitle, metrics := .empty
          findings := ["Connection check failed: " ++ e] }) ∧
    (∀ (redis : Redis) (e : String), redis.infoReplication = .error e →
      runReplicationCheck redis =
        { status := "critical", title := replTitle, metrics := .empty
          findings := ["Replication check failed: " ++ e] }) ∧
    (∀ (redis : Redis) (replicationRaw : String) (e : String),
      redis.infoReplication = .ok replicationRaw → redis.infoPersistence = .error e →
      runReplicationCheck redis =
        { status := "critical", title := replTitle, metrics := .empty
          findings := ["Replication check failed: " ++ e] }) ∧
    (∀ (redis : Redis) (sc : Option Int) (e : String), kpBody redis sc = .error e →
      runKeyPatternCheck redis sc =
        { status := "critical", title := kpTitle, metrics := .empty
          findings := ["Key pattern check failed: " ++ e] }) ∧
    (∀ (redis : Redis) (sc : Option Int) (e : String), redis.infoKeyspace = .error e →
      kpBody redis sc = .error e) ∧
    (∀ (redis : Redis) (sc : Option Int) (raw : String) (e : String),
      redis.infoKeyspace = .ok raw →
      (readKeyspaceTotals (parseInfoSection raw)).totalKeys ≠ some 0 →
      scanLoop (kpMaxSampleKeys sc) redis.scanPages [] = .error e →
      kpBody redis sc = .error e) ∧
    (∀ (redis : Redis) (sc : Option Int) (raw : String) (e : String) (scanned : List String),
      redis.infoKeyspace = .ok raw →
      (readKeyspaceTotals (parseInfoSection raw)).totalKeys ≠ some 0 →
      scanLoop (kpMaxSampleKeys sc) redis.scanPages [] = .ok scanned →
      runBatches redis.pipelineExec
        (chunksOf PIPELINE_BATCH_SIZE.toNat (trimSample (kpMaxSampleKeys sc) scanned))
        initAgg = .error e →
      kpBody redis sc = .error e) ∧
    (∀ (redis : Redis) (opts : AnalysisOptions) (serverRaw : String),
      redis.infoServer = .ok serverRaw →
      ∃ a, runAnalysis redis opts = .ok a ∧
        a.results.memory = runMemoryCheck redis ∧
        a.results.performance = runPerformanceCheck redis ∧
        a.results.connections = runConnectionCheck redis ∧
        a.results.replication = runReplicationCheck redis ∧
        (opts.noScan = false →
          a.results.keyPatterns = some (runKeyPatternCheck redis (some opts.scanCount)))) := by
  refine ⟨?_, ?_, ?_, ?_, ?_, ?_, ?_, ?_, ?_, ?_, ?_⟩
  · intro redis e h
    unfold runMemoryCheck
    rw [h]
  · intro redis e h
    unfold runPerformanceCheck promiseAll2
    rw [h]
    cases redis.infoServerPerf <;> rfl
  · intro redis statsRaw e h1 h2
    unfold runPerformanceCheck promiseAll2
    rw [h1, h2]
  · intro redis e h
    unfold runConnectionCheck
    rw [h]
  · intro redis e h
    unfold runReplicationCheck promiseAll2
    rw [h]
    cases redis.infoPersistence <;> rfl
  · intro redis replicationRaw e h1 h2
    unfold runReplicationCheck promiseAll2
    rw [h1, h2]
  · intro redis sc e h
    unfold runKeyPatternCheck
    rw [h]
  · intro redis sc e h
    unfold kpBody
    rw [h]
  · intro redis sc raw e hks hzero hscan
    unfold kpBody
    rw [hks]
    simp only
    rw [if_neg hzero, hscan]
  · intro redis sc raw e scanned hks hzero hscan hagg
    unfold kpBody
    rw [hks]
    simp only
    rw [if_neg hzero, hscan]
    simp only
    rw [hagg]
  · intro redis opts serverRaw h
    unfold runAnalysis
    rw [h]
    refine ⟨_, rfl, rfl, rfl, rfl, rfl, ?_⟩
    intro hns
    simp [hns]

/-- Witness for C2: each failure mode on a concrete adapter — including a
performance-side server-only failure, a persistence-only failure, a scan
failure and a pipelined-fetch failure — yields the critical
single-finding section, and `runAnalysis` still returns a full report. -/
theorem evaluator_failure_isolation_witness :
    runMemoryCheck wKRedis =
      { status := "critical", title := memTitle, metrics := .empty
        findings := ["Memory check failed: m"] } ∧
    runPerformanceCheck wKRedis =
      { status := "critical", title := perfTitle, metrics := .empty
        findings := ["Performance check failed: s"] } ∧
    runPerformanceCheck wPerfSrvRedis =
      { status := "critical", title := perfTitle, metrics := .empty
        findings := ["Performance check failed: s2"] } ∧
    runConnectionCheck wKRedis =
      { status := "critical", title := connTitle, metrics := .empty
        findings := ["Connection check failed: c"] } ∧
    runReplicationCheck wKRedis =
      { status := "critical", title := replTitle, metrics := .empty
        findings := ["Replication check failed: r"] } ∧
    runReplicationCheck wPersistErrRedis =
      { status := "critical", title := replTitle, metrics := .empty
        findings := ["Replication check failed: p"] } ∧
    runKeyPatternCheck wKPErrRedis (some 10) =
      { status := "critical", title := kpTitle, metrics := .empty
        findings := ["Key pattern check failed: k"] } ∧
    runKeyPatternCheck wScanErrRedis (some 10) =
      { status := "critical", title := kpTitle, metrics := .empty
        findings := ["Key pattern check failed: sc"] } ∧
    runKeyPatternCheck wExecErrRedis (some 10) =
      { status := "critical", title := kpTitle, metrics := .empty
        findings := ["Key pattern check failed: px"] } ∧
    ∃ a, runAnalysis wKRedis ⟨false, 1000⟩ = .ok a ∧
      a.results.memory = runMemoryCheck wKRedis ∧
      a.results.performance = runPerformanceCheck wKRedis ∧
      a.results.connections = runConnectionCheck wKRedis ∧
      a.results.replication = runReplicationCheck wKRedis ∧
      ((AnalysisOptions.mk false 1000).noScan = false →
        a.results.keyPatterns =
          some (runKeyPatternCheck wKRedis (some (AnalysisOptions.mk false 1000).scanCount))) :=
  ⟨evaluator_failure_isolation.1 wKRedis "m" (by decide),
   evaluator_failure_isolation.2.1 wKRedis "s" (by decide),
   evaluator_failure_isolation.2.2.1 wPerfSrvRedis "" "s2" (by decide) (by decide),
   evaluator_failure_isolation.2.2.2.1 wKRedis "c" (by decide),
   evaluator_failure_isolation.2.2.2.2.1 wKRedis "r" (by decide),
   evaluator_failure_isolation.2.2.2.2.2.1 wPersistErrRedis "" "p" (by decide) (by decide),
   evaluator_failure_isolation.2.2.2.2.2.2.1 wKPErrRedis (some 10) "k"
     (evaluator_failure_isolation.2.2.2.2.2.2.2.1 wKPErrRedis (some 10) "k" (by decide)),
   evaluator_failure_isolation.2.2.2.2.2.2.1 wScanErrRedis (some 10) "sc"
     (evaluator_failure_isolation.2.2.2.2.2.2.2.2.1 wScanErrRedis (some 10) "db0:keys=2" "sc"
       (by decide) (by decide) (by decide)),
   evaluator_failure_isolation.2.2.2.2.2.2.1 wExecErrRedis (some 10) "px"
     (evaluator_failure_isolation.2.2.2.2.2.2.2.2.2.1 wExecErrRedis (some 10) "db0:keys=2" "px"
       ["a:1", "b"] (by decide) (by decide) (by decide) (by decide)),
   evaluator_failure_isolation.2.2.2.2.2.2.2.2.2.2 wKRedis ⟨false, 1000⟩ "redis_version:7.0.0"
     (by decide)⟩

end RedisAnalyzer
